import Mathlib

/-!
# snesquest: PPU memory layouts, colour conversion, test setup and frame update

A shallow embedding of `src/libsnes/snes.h` (the packed PPU structures and the colour
conversion macros), of the places in `src/libsnes/App.c` that size the output buffer and
call the renderer, of `_setupTestSNES` and `gameUpdate` of `src/libsnes/Game.c`, and of
`dbConnect` of `src/libsnes/DB.c`.

The header is compiled under `#pragma pack(push, 1)`: a struct lays its members out one
after another without padding, a union puts every member at offset 0, and a run of
bit-fields fills a storage unit of its declared type from bit 0 upwards.  `CType`
describes a declaration, `CType.sizeof` and `locate` compute what the compiler computes
from it.  Machine integers are `Nat` with the truncation written out.
-/

namespace SnesQuest

/-! ## Packed C layout -/

mutual
/-- C object types of the header.  `byte` and `byte2` are the unsigned 8 and 16 bit
integers of `libutils/Defs.h`. -/
inductive CType where
  | byte : CType
  | byte2 : CType
  | array (elem : CType) (len : Nat) : CType
  | struct (ms : Members) : CType
  | union (ms : Members) : CType
/-- Member list of a struct or union, in declaration order.  `field` is a named member
(the name is empty for an anonymous struct or union), `bits` is one run of bit-fields
declared with a storage unit of `unitBytes` bytes (the name is empty for unnamed
padding bits). -/
inductive Members where
  | nil : Members
  | field (name : String) (t : CType) (rest : Members) : Members
  | bits (unitBytes : Nat) (fs : List (String × Nat)) (rest : Members) : Members
end

/-- Number of storage units a run of bit-fields takes: a unit is filled from bit 0 and a
field that does not fit in what is left of the unit starts the next one. -/
def bitsUnits (unitBits : Nat) : Nat → List (String × Nat) → Nat
  | _, [] => 1
  | pos, (_, w) :: rest =>
    if pos + w ≤ unitBits then bitsUnits unitBits (pos + w) rest
    else 1 + bitsUnits unitBits w rest

/-- Storage unit, first bit and width of the bit-field `name` inside a run. -/
def bitsFind (unitBits : Nat) (name : String) :
    Nat → Nat → List (String × Nat) → Option (Nat × Nat × Nat)
  | _, _, [] => none
  | u, pos, (n, w) :: rest =>
    if pos + w ≤ unitBits then
      if n = name then some (u, pos, w) else bitsFind unitBits name u (pos + w) rest
    else
      if n = name then some (u + 1, 0, w) else bitsFind unitBits name (u + 1) w rest

mutual
/-- The `sizeof` of a type under `#pragma pack(1)`. -/
def CType.sizeof : CType → Nat
  | .byte => 1
  | .byte2 => 2
  | .array e n => n * e.sizeof
  | .struct ms => ms.structSize
  | .union ms => ms.unionSize
/-- Size of a packed struct: the sum of its members. -/
def Members.structSize : Members → Nat
  | .nil => 0
  | .field _ t rest => t.sizeof + rest.structSize
  | .bits u fs rest => u * bitsUnits (8 * u) 0 fs + rest.structSize
/-- Size of a union: its largest member.  Every bit-field of a union is a member of
its own, in one storage unit. -/
def Members.unionSize : Members → Nat
  | .nil => 0
  | .field _ t rest => max t.sizeof rest.unionSize
  | .bits u _ rest => max u rest.unionSize
end

/-- Where an lvalue lives: an object of a type at a byte offset, or a bit-field inside
the storage unit of `unitBytes` bytes at a byte offset. -/
inductive Place where
  | obj (off : Nat) (t : CType) : Place
  | bitfield (off unitBytes shift width : Nat) : Place

/-- Member `name` of a packed struct whose first member in `ms` sits at byte `off`. -/
def Members.findStruct (name : String) : Nat → Members → Option Place
  | _, .nil => none
  | off, .field n t rest =>
    if n = name then some (.obj off t) else rest.findStruct name (off + t.sizeof)
  | off, .bits u fs rest =>
    match bitsFind (8 * u) name 0 0 fs with
    | some (k, s, w) => some (.bitfield (off + u * k) u s w)
    | none => rest.findStruct name (off + u * bitsUnits (8 * u) 0 fs)

/-- Width of the bit-field `name` among the bit-fields declared in a union. -/
def bitsFindUnion (name : String) : List (String × Nat) → Option Nat
  | [] => none
  | (n, w) :: rest => if n = name then some w else bitsFindUnion name rest

/-- Member `name` of a union at byte `off`: every member, a bit-field too, starts at
the first bit of the union. -/
def Members.findUnion (name : String) (off : Nat) : Members → Option Place
  | .nil => none
  | .field n t rest =>
    if n = name then some (.obj off t) else rest.findUnion name off
  | .bits u fs rest =>
    match bitsFindUnion name fs with
    | some w => some (.bitfield off u 0 w)
    | none => rest.findUnion name off

/-- One step of an lvalue expression: `.name` or `[i]`. -/
inductive Step where
  | field (name : String) : Step
  | index (i : Nat) : Step

/-- Place reached from an object of type `t` at byte `off` by a chain of member and
index steps; `none` when a member does not exist or an index is outside its array. -/
def locateFrom : Nat → CType → List Step → Option Place
  | off, t, [] => some (.obj off t)
  | off, .array e n, .index i :: rest =>
    if i < n then locateFrom (off + i * e.sizeof) e rest else none
  | off, .struct ms, .field f :: rest =>
    match ms.findStruct f off with
    | some (.obj o t) => locateFrom o t rest
    | some (.bitfield o u s w) => if rest.isEmpty then some (.bitfield o u s w) else none
    | none => none
  | off, .union ms, .field f :: rest =>
    match ms.findUnion f off with
    | some (.obj o t) => locateFrom o t rest
    | some (.bitfield o u s w) => if rest.isEmpty then some (.bitfield o u s w) else none
    | none => none
  | _, _, _ => none

/-- Place of an lvalue relative to the start of an object of type `t`. -/
def locate (t : CType) (path : List Step) : Option Place := locateFrom 0 t path

/-- Byte offset of an lvalue (`offsetof`), for objects and bit-field units alike. -/
def offsetOf (t : CType) (path : List Step) : Option Nat :=
  match locate t path with
  | some (.obj o _) => some o
  | some (.bitfield o _ _ _) => some o
  | none => none

/-- Bit position of a bit-field lvalue: byte offset of its storage unit, first bit and
width; `none` when the lvalue is not a bit-field. -/
def bitsOf (t : CType) (path : List Step) : Option (Nat × Nat × Nat) :=
  match locate t path with
  | some (.bitfield o _ s w) => some (o, s, w)
  | _ => none

/-- Size of the object an lvalue denotes; a bit-field has none. -/
def sizeAt (t : CType) (path : List Step) : Option Nat :=
  match locate t path with
  | some (.obj _ u) => some u.sizeof
  | _ => none

/-- Value of the bit-field of `width` bits that starts at bit `shift` of a unit. -/
def getBits (word shift width : Nat) : Nat := (word >>> shift) % 2 ^ width

/-- Value read from the bit-field member `name` of `t` when its storage unit holds
`word`. -/
def readField (t : CType) (name : String) (word : Nat) : Nat :=
  match bitsOf t [.field name] with
  | some (_, s, w) => getBits word s w
  | none => 0

/-- Storage unit holding the given bit-field values: every value is truncated to its
width and placed from bit `pos` upwards in declaration order; other bits are zero.
For a run that fits one storage unit. -/
def packBits (val : String → Nat) : Nat → List (String × Nat) → Nat
  | _, [] => 0
  | pos, (n, w) :: rest => ((val n % 2 ^ w) <<< pos) ||| packBits val (pos + w) rest

/-! ## Colours (snes.h 13-25) -/

/-- Bit-fields of `SNESColor`: `byte2 r : 5, g : 5, b : 5`. -/
def SNESColor.fields : List (String × Nat) := [("r", 5), ("g", 5), ("b", 5)]

/-- Layout of `SNESColor`. -/
def SNESColor.ctype : CType := .struct (.bits 2 SNESColor.fields .nil)

/-- Value of an `SNESColor`: the contents of its three bit-fields. -/
structure SNESColor where
  r : Nat
  g : Nat
  b : Nat
  deriving DecidableEq, Repr

/-- Every channel holds a 5-bit value. -/
def SNESColor.valid (c : SNESColor) : Prop := c.r < 32 ∧ c.g < 32 ∧ c.b < 32

instance (c : SNESColor) : Decidable c.valid := by
  unfold SNESColor.valid; infer_instance

/-- Field access by name. -/
def SNESColor.get (c : SNESColor) (name : String) : Nat :=
  if name = "r" then c.r else if name = "g" then c.g else if name = "b" then c.b else 0

/-- The 16-bit storage unit of an `SNESColor`. -/
def SNESColor.word (c : SNESColor) : Nat := packBits c.get 0 SNESColor.fields

/-- The two bytes of an `SNESColor` in memory (little-endian unit). -/
def SNESColor.bytes (c : SNESColor) : List Nat := [c.word % 256, c.word / 256 % 256]

/-- Modelled from the spec: `ColorRGBA` of `libutils/Defs.h`, which is not among the
sources; the output is RGBA8888, four 8-bit channels `r`, `g`, `b`, `a`. -/
structure ColorRGBA where
  r : Nat
  g : Nat
  b : Nat
  a : Nat
  deriving DecidableEq, Repr

/-- Every channel holds an 8-bit value. -/
def ColorRGBA.valid (c : ColorRGBA) : Prop := c.r < 256 ∧ c.g < 256 ∧ c.b < 256 ∧ c.a < 256

instance (c : ColorRGBA) : Decidable c.valid := by
  unfold ColorRGBA.valid; infer_instance

/-- The expression `((IN).c >> 2) | ((IN).c << 3)` of the macro, before it is stored. -/
def stretch5 (c : Nat) : Nat := (c >>> 2) ||| (c <<< 3)

/-- The macro `snesColorConverTo24Bit`: each channel is stored into a byte. -/
def snesColorConverTo24Bit (c : SNESColor) : ColorRGBA :=
  { r := stretch5 c.r % 256, g := stretch5 c.g % 256, b := stretch5 c.b % 256, a := 255 }

/-- The macro `snesColorConvertFrom24Bit`: each channel is stored into a 5-bit field. -/
def snesColorConvertFrom24Bit (c : ColorRGBA) : SNESColor :=
  { r := (c.r >>> 3) % 32, g := (c.g >>> 3) % 32, b := (c.b >>> 3) % 32 }

/-! ## CGRAM (snes.h 27-62) -/

/-- Layout of `CGRAM`: an anonymous union of the palette views. -/
def CGRAM.ctype : CType :=
  .struct (.field "" (.union
    (.field "colors" (.array SNESColor.ctype 256)
    (.field "bgPalette128" (.struct
      (.field "colors" (.array SNESColor.ctype 128) .nil))
    (.field "bgPalette16s" (.array (.struct
      (.field "colors" (.array SNESColor.ctype 16) .nil)) 8)
    (.field "bgPalette4s" (.array (.struct
      (.field "colors" (.array SNESColor.ctype 4) .nil)) 8)
    (.field "mode0BGPalettes" (.array (.struct
      (.field "palette4s" (.array (.struct
        (.field "colors" (.array SNESColor.ctype 4) .nil)) 8) .nil)) 4)
    (.field "objPalettes" (.struct
      (.field "__unused" (.array (.array SNESColor.ctype 8) 16)
      (.field "palette16s" (.array (.struct
        (.field "colors" (.array SNESColor.ctype 16) .nil)) 8) .nil)))
    .nil))))))) .nil)

/-- The lvalue `cgram.colors[e]`. -/
def CGRAM.colors (e : Nat) : List Step := [.field "", .field "colors", .index e]

/-- The lvalue `cgram.bgPalette16s[p].colors[i]`. -/
def CGRAM.bgPalette16s (p i : Nat) : List Step :=
  [.field "", .field "bgPalette16s", .index p, .field "colors", .index i]

/-- The lvalue `cgram.bgPalette4s[p].colors[i]`. -/
def CGRAM.bgPalette4s (p i : Nat) : List Step :=
  [.field "", .field "bgPalette4s", .index p, .field "colors", .index i]

/-- The lvalue `cgram.mode0BGPalettes[b].palette4s[p].colors[i]`. -/
def CGRAM.mode0BGPalettes (b p i : Nat) : List Step :=
  [.field "", .field "mode0BGPalettes", .index b, .field "palette4s", .index p,
    .field "colors", .index i]

/-- The lvalue `cgram.objPalettes.palette16s[p].colors[i]`. -/
def CGRAM.objPalettes (p i : Nat) : List Step :=
  [.field "", .field "objPalettes", .field "palette16s", .index p, .field "colors",
    .index i]

/-! ## Characters (snes.h 64-79) -/

/-- Layout of `Char4`: `rows[8]` of `planes[2]`. -/
def Char4.ctype : CType :=
  .struct (.field "rows" (.array (.struct (.field "planes" (.array .byte 2) .nil)) 8) .nil)

/-- Layout of `Char16`: `Char4 tiles[2]`. -/
def Char16.ctype : CType := .struct (.field "tiles" (.array Char4.ctype 2) .nil)

/-- Layout of `Char256`: `Char16 tiles[2]`. -/
def Char256.ctype : CType := .struct (.field "tiles" (.array Char16.ctype 2) .nil)

/-- Bit-plane `k` (0 or 1) of pixel row `r` of a `Char4`: `rows[r].planes[k]`. -/
def Char4.plane (r k : Nat) : List Step := [.field "rows", .index r, .field "planes", .index k]

/-- Bit-plane `k` (0..3) of pixel row `r` of a `Char16`: the planes of `tiles[0]`, then
those of `tiles[1]`. -/
def Char16.plane (r k : Nat) : List Step :=
  [.field "tiles", .index (k / 2)] ++ Char4.plane r (k % 2)

/-- Bit-plane `k` (0..7) of pixel row `r` of a `Char256`: the planes of `tiles[0]`, then
those of `tiles[1]`. -/
def Char256.plane (r k : Nat) : List Step :=
  [.field "tiles", .index (k / 4)] ++ Char16.plane r (k % 4)

/-! ## Tiles and tile maps (snes.h 81-142) -/

/-- Bit-fields of `Tile.tile`:
`byte2 character : 10, palette : 3, priority : 1, flipX : 1, flipY : 1`. -/
def Tile.tileFields : List (String × Nat) :=
  [("character", 10), ("palette", 3), ("priority", 1), ("flipX", 1), ("flipY", 1)]

/-- Layout of the struct `Tile.tile`. -/
def Tile.tileCType : CType := .struct (.bits 2 Tile.tileFields .nil)

/-- Layout of `Tile`: an anonymous union of the views `tile`, `opt` and `dcm`. -/
def Tile.ctype : CType :=
  .struct (.field "" (.union
    (.field "tile" Tile.tileCType
    (.field "opt" (.struct (.bits 2
      [("offset", 10), ("", 3), ("applyToBG1", 1), ("applyToBG2", 1),
        ("applyToVertical", 1)] .nil))
    (.field "dcm" (.struct
      (.field "" (.union
        (.bits 1 [("RRR", 3), ("GGG", 3), ("BB", 2)]
        (.field "colorRaw" .byte .nil)))
      (.bits 1 [("", 2), ("r", 1), ("g", 1), ("b", 1), ("priority", 1), ("flipX", 1),
        ("flipY", 1)] .nil)))
    .nil)))) .nil)

/-- Value of the standard view of a `Tile`. -/
structure Tile where
  character : Nat
  palette : Nat
  priority : Nat
  flipX : Nat
  flipY : Nat
  deriving DecidableEq, Repr

/-- Every field holds a value of its declared width. -/
def Tile.valid (t : Tile) : Prop :=
  t.character < 1024 ∧ t.palette < 8 ∧ t.priority < 2 ∧ t.flipX < 2 ∧ t.flipY < 2

instance (t : Tile) : Decidable t.valid := by
  unfold Tile.valid; infer_instance

/-- Field access by name. -/
def Tile.get (t : Tile) (name : String) : Nat :=
  if name = "character" then t.character
  else if name = "palette" then t.palette
  else if name = "priority" then t.priority
  else if name = "flipX" then t.flipX
  else if name = "flipY" then t.flipY
  else 0

/-- The 16-bit storage unit of a standard tile. -/
def Tile.word (t : Tile) : Nat := packBits t.get 0 Tile.tileFields

/-- The five fields read from a 16-bit word. -/
def Tile.ofWord (w : Nat) : Tile :=
  { character := readField Tile.tileCType "character" w
    palette := readField Tile.tileCType "palette" w
    priority := readField Tile.tileCType "priority" w
    flipX := readField Tile.tileCType "flipX" w
    flipY := readField Tile.tileCType "flipY" w }

/-- Layout of `TileMap`: `Tile tiles[32 * 32]`. -/
def TileMap.ctype : CType := .struct (.field "tiles" (.array Tile.ctype (32 * 32)) .nil)

/-! ## VRAM (snes.h 164-225) -/

/-- Layout of the struct `VRAM.mode1`. -/
def VRAM.mode1CType : CType :=
  .struct
    (.field "bg1TMaps" (.array TileMap.ctype 4)
    (.field "bg2TMaps" (.array TileMap.ctype 4)
    (.field "objCMaps" (.array (.struct
      (.field "chars" (.array Char16.ctype (16 * 16)) .nil)) 2)
    (.field "bgCMap" (.struct
      (.field "color4s" (.array Char4.ctype (32 * 4))
      (.field "color16s" (.array Char16.ctype (16 * 56)) .nil)))
    (.field "bg3TMap" TileMap.ctype .nil)))))

/-- Layout of the struct `VRAM.mode7`. -/
def VRAM.mode7CType : CType :=
  .struct
    (.field "" (.union
      (.field "BG1" (.struct
        (.field "tiles" (.array .byte (128 * 128))
        (.field "characters" (.array (.struct
          (.field "pixels" (.array .byte (8 * 8)) .nil)) 256) .nil)))
      (.field "BG2" (.struct
        (.field "tiles" (.array .byte (128 * 128))
        (.field "characters" (.array (.struct
          (.field "pixels" (.array (.struct
            (.bits 1 [("color", 7), ("priority", 1)] .nil)) (8 * 8)) .nil)) 256) .nil)))
      .nil)))
    (.field "raw" (.array .byte 0x7FF) .nil))

/-- Layout of `VRAM`: an anonymous union of `raw`, `mode1` and `mode7`. -/
def VRAM.ctype : CType :=
  .struct (.field "" (.union
    (.field "raw" (.array .byte 0x10000)
    (.field "mode1" VRAM.mode1CType
    (.field "mode7" VRAM.mode7CType .nil)))) .nil)

/-! ## OAM (snes.h 227-256) -/

/-- Bit-fields of the fourth byte of a `Sprite`:
`byte nameTable : 1, palette : 3, priority : 2, flipX : 1, flipY : 1`. -/
def Sprite.attrFields : List (String × Nat) :=
  [("nameTable", 1), ("palette", 3), ("priority", 2), ("flipX", 1), ("flipY", 1)]

/-- Layout of `Sprite`. -/
def Sprite.ctype : CType :=
  .struct
    (.field "x" .byte
    (.field "y" .byte
    (.field "character" .byte
    (.bits 1 Sprite.attrFields .nil))))

/-- Layout of one byte of the secondary table. -/
def OAM.secondaryCType : CType :=
  .struct (.bits 1
    [("x9_0", 1), ("sz_0", 1), ("x9_1", 1), ("sz_1", 1), ("x9_2", 1), ("sz_2", 1),
      ("x9_3", 1), ("sz_3", 1)] .nil)

/-- Layout of `OAM`. -/
def OAM.ctype : CType :=
  .struct
    (.field "primary" (.array Sprite.ctype 128)
    (.field "secondary" (.array OAM.secondaryCType 32) .nil))

/-- The lvalue `oam.primary[n].f`. -/
def OAM.primary (n : Nat) (f : String) : List Step :=
  [.field "primary", .index n, .field f]

/-- The `x9` bit of sprite `n`, as `gameUpdate` addresses it (Game.c 221-238):
`oam.secondary[n / 4].x9_k` with `k = n % 4`. -/
def OAM.x9 (n : Nat) : List Step :=
  [.field "secondary", .index (n / 4),
    .field (match n % 4 with | 0 => "x9_0" | 1 => "x9_1" | 2 => "x9_2" | _ => "x9_3")]

/-- The `sz` bit of sprite `n`, as `gameUpdate` addresses it (Game.c 221-238):
`oam.secondary[n / 4].sz_k` with `k = n % 4`. -/
def OAM.sz (n : Nat) : List Step :=
  [.field "secondary", .index (n / 4),
    .field (match n % 4 with | 0 => "sz_0" | 1 => "sz_1" | 2 => "sz_2" | _ => "sz_3")]

/-! ## Output buffer (snes.h 5-8, App.c 101-102) -/

/-- The macro `SNES_SIZE_X`. -/
def SNES_SIZE_X : Nat := 256

/-- The macro `SNES_SIZE_Y`. -/
def SNES_SIZE_Y : Nat := 168

/-- The macro `SNES_SCANLINE_WIDTH`. -/
def SNES_SCANLINE_WIDTH : Nat := SNES_SIZE_X * 2

/-- The macro `SNES_SCANLINE_COUNT`. -/
def SNES_SCANLINE_COUNT : Nat := SNES_SIZE_Y

/-- Number of `ColorRGBA` elements of `snesBuffer`, the first argument of the
`checkedCalloc` in `_setupRenderData`. -/
def snesBufferLen : Nat := SNES_SCANLINE_WIDTH * SNES_SCANLINE_COUNT

/-- Modelled from the spec: the body of `snesRender` is not among the sources; the output
is row-major with a row of `SNES_SCANLINE_WIDTH` pixels, so column `col` of scanline `y`
is element `y * SNES_SCANLINE_WIDTH + col`. -/
def outIndex (y col : Nat) : Nat := y * SNES_SCANLINE_WIDTH + col

/-- Modelled from the spec: outside hi-res, source pixel `x` of a scanline is written to
both columns `2x` and `2x + 1`. -/
def outPair (x y : Nat) : List Nat := [outIndex y (2 * x), outIndex y (2 * x + 1)]

/-! ## Registers (snes.h 269-572) -/

/-- Modelled from the spec: `TwosComplement13` of `libutils/Defs.h`, which is not among
the sources; a 13-bit two's-complement value, held in 2 bytes. -/
def TwosComplement13.ctype : CType := .byte2

/-- Modelled from the spec: `FixedPoint` of `libutils/Defs.h`, which is not among the
sources; the header calls it 16-bit fixed point (8 fraction, 7 integer, 1 sign). -/
def FixedPoint.ctype : CType := .byte2

/-- Layout of one of the four structs `mainScreenMasking`, `subScreenMasking`,
`mainScreenDesignation`, `subScreenDesignation`: `byte bg1 : 1, bg2 : 1, bg3 : 1,
bg4 : 1, obj : 1`. -/
def Registers.layerBitsCType : CType :=
  .struct (.bits 1 [("bg1", 1), ("bg2", 1), ("bg3", 1), ("bg4", 1), ("obj", 1)] .nil)

/-- Layout of `Registers`. -/
def Registers.ctype : CType :=
  .struct
    (.field "objSizeAndBase" (.struct
      (.bits 1 [("baseAddr", 3), ("baseGap", 2), ("objSize", 3)] .nil))
    (.field "bgMode" (.struct
      (.bits 1 [("mode", 3), ("m1bg3pri", 1), ("sizeBG1", 1), ("sizeBG2", 1),
        ("sizeBG3", 1), ("sizeBG4", 1)] .nil))
    (.field "mosaic" (.struct
      (.bits 1 [("enableBG1", 1), ("enableBG2", 1), ("enableBG3", 1), ("enableBG4", 1),
        ("size", 4)] .nil))
    (.field "bgSizeAndTileBase" (.array (.struct
      (.bits 1 [("sizeY", 1), ("sizeX", 1), ("baseAddr", 6)] .nil)) 4)
    (.field "bgCharBase" (.struct
      (.bits 1 [("bg1", 4), ("bg2", 4), ("bg3", 4), ("bg4", 4)] .nil))
    (.field "bgScroll" (.array (.struct
      (.field "" (.union
        (.field "BG" (.struct
          (.bits 2 [("horzOffset", 10), ("vertOffset", 10)] .nil))
        (.field "M7" (.struct
          (.field "horzOffset" TwosComplement13.ctype
          (.field "vertOffset" TwosComplement13.ctype .nil)))
        .nil))) .nil)) 4)
    (.field "mode7Settings" (.struct
      (.bits 1 [("xFlip", 1), ("yFlip", 1), ("", 4), ("screenOver", 2)] .nil))
    (.field "mode7Matrix" (.struct
      (.field "a" FixedPoint.ctype
      (.field "b" FixedPoint.ctype
      (.field "c" FixedPoint.ctype
      (.field "d" FixedPoint.ctype .nil)))))
    (.field "mode7Origin" (.struct
      (.field "x" TwosComplement13.ctype
      (.field "y" TwosComplement13.ctype .nil)))
    (.field "windowPosition" (.array (.struct
      (.field "left" .byte
      (.field "right" .byte .nil))) 2)
    (.field "windowMaskSettings" (.struct
      (.bits 1
        [("win1InvertBG1", 1), ("win1EnableBG1", 1), ("win2InvertBG1", 1),
          ("win2EnableBG1", 1), ("win1InvertBG2", 1), ("win1EnableBG2", 1),
          ("win2InvertBG2", 1), ("win2EnableBG2", 1),
          ("win1InvertBG3", 1), ("win1EnableBG3", 1), ("win2InvertBG3", 1),
          ("win2EnableBG3", 1), ("win1InvertBG4", 1), ("win1EnableBG4", 1),
          ("win2InvertBG4", 1), ("win2EnableBG4", 1),
          ("win1InvertOBJ", 1), ("win1EnableOBJ", 1), ("win2InvertOBJ", 1),
          ("win2EnableOBJ", 1), ("win1InvertCol", 1), ("win1EnableCol", 1),
          ("win2InvertCol", 1), ("win2EnableCol", 1)] .nil))
    (.field "windowMaskLogic" (.struct
      (.bits 1 [("bg1", 2), ("bg2", 2), ("bg3", 2), ("bg4", 2), ("obj", 2), ("color", 2)]
        .nil))
    (.field "mainScreenMasking" Registers.layerBitsCType
    (.field "subScreenMasking" Registers.layerBitsCType
    (.field "mainScreenDesignation" Registers.layerBitsCType
    (.field "subScreenDesignation" Registers.layerBitsCType
    (.field "colorMathControl" (.struct
      (.bits 1
        [("directColorMode", 1), ("enableBGOBJ", 1), ("", 2), ("colorMathEnable", 2),
          ("forceScreenBlack", 2),
          ("bg1", 1), ("bg2", 1), ("bg3", 1), ("bg4", 1), ("obj", 1), ("backDrop", 1),
          ("halve", 1), ("addSubtract", 1)] .nil))
    (.field "fixedColorData" SNESColor.ctype
    (.field "screenSettings" (.struct
      (.bits 1
        [("screenInterlace", 1), ("objInterlace", 1), ("overscanMode", 1),
          ("pseudoHiResMode", 1), ("", 2), ("mode7EXTBG", 1), ("externalSync", 1)] .nil))
    .nil)))))))))))))))))))

/-- The lvalue `reg.<s>.<f>`. -/
def Registers.at (s f : String) : List Step := [.field s, .field f]

/-- The lvalue `reg.bgSizeAndTileBase[i].<f>`. -/
def Registers.bgSizeAndTileBase (i : Nat) (f : String) : List Step :=
  [.field "bgSizeAndTileBase", .index i, .field f]

/-- The lvalue `reg.bgScroll[i].BG.<f>`. -/
def Registers.bgScrollBG (i : Nat) (f : String) : List Step :=
  [.field "bgScroll", .index i, .field "", .field "BG", .field f]

/-! ## Byte memory and lvalues -/

/-- The bytes of an object, by byte offset. -/
abbrev Mem := Nat → Nat

/-- The little-endian value of the `n` bytes at `off`. -/
def loadUnit (m : Mem) : Nat → Nat → Nat
  | _, 0 => 0
  | off, n + 1 => m off % 256 + 256 * loadUnit m (off + 1) n

/-- Memory after the `n` bytes at `off` receive the low `n` bytes of `v`,
little-endian. -/
def storeUnit (m : Mem) : Nat → Nat → Nat → Mem
  | _, 0, _ => m
  | off, n + 1, v => storeUnit (fun a => if a = off then v % 256 else m a) (off + 1) n (v / 256)

/-- A storage unit after the bit-field of `width` bits at bit `shift` receives `v`:
the value is truncated to the width, the other bits of the unit stay. -/
def setBits (word shift width v : Nat) : Nat :=
  word % 2 ^ shift + (v % 2 ^ width) * 2 ^ shift +
    (word / 2 ^ (shift + width)) * 2 ^ (shift + width)

/-- Storage of a scalar lvalue: byte offset and size of its unit, then first bit and
width inside the unit (a plain object fills its unit). -/
def storageOf (t : CType) (path : List Step) : Option (Nat × Nat × Nat × Nat) :=
  match locate t path with
  | some (.obj o u) => some (o, u.sizeof, 0, 8 * u.sizeof)
  | some (.bitfield o u s w) => some (o, u, s, w)
  | none => none

/-- Value read from a scalar lvalue of an object of type `t` with bytes `m`. -/
def load (t : CType) (path : List Step) (m : Mem) : Nat :=
  match storageOf t path with
  | some (o, u, s, w) => getBits (loadUnit m o u) s w
  | none => 0

/-- Memory after the assignment `lvalue = v`. -/
def store (t : CType) (path : List Step) (v : Nat) (m : Mem) : Mem :=
  match storageOf t path with
  | some (o, u, s, w) => storeUnit m o u (setBits (loadUnit m o u) s w v)
  | none => m

/-- Memory after `memcpy(dst, src, n)` inside one object, for ranges that do not
overlap. -/
def memcpy (dst src n : Nat) (m : Mem) : Mem :=
  fun a => if dst ≤ a ∧ a < dst + n then m (src + (a - dst)) else m a

/-- Conversion of a C integer to an unsigned type of `bits` bits. -/
def toUnsigned (bits : Nat) (i : Int) : Nat := (i % 2 ^ bits).toNat

/-! ## Rendering entry point (snes.h 574-585, App.c 257-269) -/

/-- The struct `SNES`: the bytes of its four members. -/
structure SNES where
  cgram : Mem
  vram : Mem
  oam : Mem
  reg : Mem

/-- The enumerator `SNES_RENDER_DEBUG_WHITE`. -/
def SNES_RENDER_DEBUG_WHITE : Nat := 1 <<< 0

/-- The local `renderFlags` of `_snesSoftwareRender` at the call of `snesRender`. -/
def renderFlags (snesRenderWhite : Bool) : Nat :=
  let renderFlags := 0
  if snesRenderWhite then renderFlags ||| SNES_RENDER_DEBUG_WHITE else renderFlags

/-- Modelled from the spec: the body of `snesRender` is not among the sources.  It writes
the 512 x 168 pixels of `out`; bit 0 of `flags` (`DEBUG_WHITE`) forces every one of them to
opaque white.  `raster` stands for the rasteriser of the spec, which decides the pixels
otherwise. -/
def snesRender (raster : SNES → Nat → Nat → ColorRGBA) (self : SNES) (out : Nat → ColorRGBA)
    (flags : Nat) : Nat → ColorRGBA :=
  fun p =>
    if p < SNES_SCANLINE_WIDTH * SNES_SCANLINE_COUNT then
      if flags &&& SNES_RENDER_DEBUG_WHITE ≠ 0 then ⟨255, 255, 255, 255⟩
      else raster self flags p
    else out p

/-- The function `_snesSoftwareRender`: the contents of `snesBuffer` after the call of
`snesRender`. -/
def _snesSoftwareRender (raster : SNES → Nat → Nat → ColorRGBA) (snes : SNES)
    (snesRenderWhite : Bool) (snesBuffer : Nat → ColorRGBA) : Nat → ColorRGBA :=
  snesRender raster snes snesBuffer (renderFlags snesRenderWhite)

/-! ## Addresses the registers select (snes.h 279-286, 357-368, 592-594) -/

/-- Address of the first tilemap of a BG: `&vram + (baseAddr << 11)`. -/
def bgTileMapAddr (baseAddr : Nat) : Nat := baseAddr <<< 11

/-- Address of the characters of a BG: `&vram + (baseAddr << 13)`. -/
def bgCharAddr (baseAddr : Nat) : Nat := baseAddr <<< 13

/-- Address of OBJ character table 0: `&vram + (baseAddr << 14)`. -/
def objTable0Addr (baseAddr : Nat) : Nat := baseAddr <<< 14

/-- Bytes of one CMap row: 32 four-colour characters. -/
def cMapRowBytes : Nat := 32 * Char4.ctype.sizeof

/-- Modelled from the spec: the body of `cMapCreate` is not among the sources.  The CMap
owns the rows `[rowOffset, rowOffset + rowCount)` of the character table at
`vram + (baseAddr << 13)`; the result is the first byte of the region and the first byte
after it. -/
def cMapRegion (baseAddr rowOffset rowCount : Nat) : Nat × Nat :=
  ((baseAddr <<< 13) + cMapRowBytes * rowOffset,
    (baseAddr <<< 13) + cMapRowBytes * (rowOffset + rowCount))

/-! ## Test setup (Game.c 13-110) -/

/-- The enumerator `OBJSIZE_32x32_64x64`. -/
def OBJSIZE_32x32_64x64 : Nat := 5

/-- The register assignments of `_setupTestSNES` (Game.c 15-48), in order. -/
def _setupTestSNES.registers (reg : Mem) : Mem :=
  reg
    |> store Registers.ctype (Registers.at "bgMode" "mode") 1
    |> store Registers.ctype (Registers.at "bgMode" "m1bg3pri") 1
    |> store Registers.ctype (Registers.bgSizeAndTileBase 0 "baseAddr") 0
    |> store Registers.ctype (Registers.bgSizeAndTileBase 0 "sizeX") 0
    |> store Registers.ctype (Registers.bgSizeAndTileBase 0 "sizeY") 0
    |> store Registers.ctype (Registers.bgSizeAndTileBase 1 "baseAddr") 4
    |> store Registers.ctype (Registers.bgSizeAndTileBase 1 "sizeX") 0
    |> store Registers.ctype (Registers.bgSizeAndTileBase 1 "sizeY") 0
    |> store Registers.ctype (Registers.bgSizeAndTileBase 2 "baseAddr") 31
    |> store Registers.ctype (Registers.bgSizeAndTileBase 2 "sizeX") 0
    |> store Registers.ctype (Registers.bgSizeAndTileBase 2 "sizeY") 0
    |> store Registers.ctype (Registers.at "objSizeAndBase" "baseAddr") 1
    |> store Registers.ctype (Registers.at "objSizeAndBase" "baseGap") 0
    |> store Registers.ctype (Registers.at "objSizeAndBase" "objSize") OBJSIZE_32x32_64x64
    |> store Registers.ctype (Registers.at "bgCharBase" "bg1") 4
    |> store Registers.ctype (Registers.at "bgCharBase" "bg2") 4
    |> store Registers.ctype (Registers.at "bgCharBase" "bg3") 4
    |> store Registers.ctype (Registers.at "colorMathControl" "enableBGOBJ") 1
    |> store Registers.ctype (Registers.at "colorMathControl" "bg1") 1
    |> store Registers.ctype (Registers.at "mainScreenDesignation" "bg1") 1
    |> store Registers.ctype (Registers.at "mainScreenDesignation" "bg3") 1
    |> store Registers.ctype (Registers.at "mainScreenDesignation" "obj") 0
    |> store Registers.ctype (Registers.at "subScreenDesignation" "obj") 1
    |> store Registers.ctype (Registers.at "mosaic" "enableBG1") 1

/-- Arguments `(baseAddr, rowOffset, rowCount)` of the three `cMapCreate` calls of
`_setupTestSNES` (Game.c 54, 79 and 106), in order. -/
def _setupTestSNES.cMapCreateCalls : List (Nat × Nat × Nat) :=
  [(2, 2, 32), (4, 4, 60), (4, 0, 4)]

/-! ## Frame update (Game.c 191-290) -/

/-- The fields of `AppData` that `gameUpdate` reads, as C integers (`AppData.h` is not
among the sources). -/
structure AppData where
  testX : Int
  testY : Int
  testBGX : Int
  testBGY : Int
  testMosaic : Int

/-- Modelled from the spec: `TwosComplement9` of `libutils/Defs.h`, which is not among
the sources; a 9-bit two's-complement value whose integer is `raw`, whose `twos.value` is
the low 8 bits and whose `twos.sign` is bit 8. -/
structure TwosComplement9 where
  raw : Int

/-- The member `twos.value`. -/
def TwosComplement9.value (t : TwosComplement9) : Nat := toUnsigned 8 t.raw

/-- The member `twos.sign`. -/
def TwosComplement9.sign (t : TwosComplement9) : Nat := toUnsigned 9 t.raw / 256

/-- The value an `int` computation leaves in a 32-bit `int`: the result wrapped into
`[-2^31, 2^31)`, as two's-complement machines do (C itself leaves signed overflow
undefined). -/
def wrapInt32 (i : Int) : Int := (i + 2147483648) % 4294967296 - 2147483648

/-- The program state `gameUpdate` works on: the PPU state and the two `static int`
counters of Game.c 191, which every update keeps inside 32 bits. -/
structure GameState where
  snes : SNES
  counter : Int
  counter2 : Int

/-- Body of the sprite loop of `gameUpdate` for one `(x, y)` (Game.c 211-249). -/
def gameUpdate.sprite (data : AppData) (oam : Mem) (x y : Nat) : Mem :=
  let xCount := 2
  let spacing := 64
  let idx := y * xCount + x
  let testX : TwosComplement9 := ⟨data.testX + x * spacing⟩
  let testX : TwosComplement9 := if testX.raw ≥ 256 then ⟨testX.raw - 512⟩ else testX
  let oam :=
    match idx % 4 with
    | 0 =>
      oam
        |> store OAM.ctype [.field "secondary", .index (idx / 4), .field "x9_0"] testX.sign
        |> store OAM.ctype [.field "secondary", .index (idx / 4), .field "sz_0"] 1
    | 1 =>
      oam
        |> store OAM.ctype [.field "secondary", .index (idx / 4), .field "x9_1"] testX.sign
        |> store OAM.ctype [.field "secondary", .index (idx / 4), .field "sz_1"] 1
    | 2 =>
      oam
        |> store OAM.ctype [.field "secondary", .index (idx / 4), .field "x9_2"] testX.sign
        |> store OAM.ctype [.field "secondary", .index (idx / 4), .field "sz_2"] 1
    | _ =>
      oam
        |> store OAM.ctype [.field "secondary", .index (idx / 4), .field "x9_3"] testX.sign
        |> store OAM.ctype [.field "secondary", .index (idx / 4), .field "sz_3"] 1
  let oam := store OAM.ctype (OAM.primary idx "x") testX.value oam
  let oam := store OAM.ctype (OAM.primary idx "y") (toUnsigned 8 (data.testY + y * spacing)) oam
  let oam := store OAM.ctype (OAM.primary idx "priority") 3 oam
  let oam := store OAM.ctype (OAM.primary idx "palette") 1 oam
  let oam := if x % 2 ≠ 0 then store OAM.ctype (OAM.primary idx "flipX") 1 oam else oam
  let oam := if y % 2 ≠ 0 then store OAM.ctype (OAM.primary idx "flipY") 1 oam else oam
  oam

/-- The two nested sprite loops of `gameUpdate`: `y` outside, `x` inside, both over
`0, 1`. -/
def gameUpdate.sprites (data : AppData) (oam : Mem) : Mem :=
  (List.range 2).foldl
    (fun oam y => (List.range 2).foldl (fun oam x => gameUpdate.sprite data oam x y) oam) oam

/-- Body of the palette loop of `gameUpdate` for colour `c` (Game.c 258-279). -/
def gameUpdate.fade (counter : Int) (snes : SNES) (c : Nat) : SNES :=
  let amt := Int.tmod counter 62
  let col := CGRAM.objPalettes 1 c
  if amt ≥ 31 then
    { snes with
      reg := snes.reg
        |> store Registers.ctype (Registers.at "mainScreenDesignation" "obj") 1
        |> store Registers.ctype (Registers.at "subScreenDesignation" "obj") 0 }
  else
    let reg := snes.reg
      |> store Registers.ctype (Registers.at "mainScreenDesignation" "obj") 0
      |> store Registers.ctype (Registers.at "subScreenDesignation" "obj") 1
    let r : Int := load CGRAM.ctype (col ++ [.field "r"]) snes.cgram
    let cgram := store CGRAM.ctype (col ++ [.field "r"]) (min 31 (max 0 (r - amt))).toNat
      snes.cgram
    let cgram := store CGRAM.ctype (col ++ [.field "b"])
      (load CGRAM.ctype (col ++ [.field "r"]) cgram) cgram
    let cgram := store CGRAM.ctype (col ++ [.field "g"]) 0 cgram
    { snes with reg := reg, cgram := cgram }

/-- The function `gameUpdate`. -/
def gameUpdate (data : AppData) (g : GameState) : GameState :=
  let snes := g.snes
  let reg := snes.reg
    |> store Registers.ctype (Registers.bgScrollBG 0 "horzOffset") (toUnsigned 16 data.testBGX)
    |> store Registers.ctype (Registers.bgScrollBG 0 "vertOffset") (toUnsigned 16 data.testBGY)
    |> store Registers.ctype (Registers.at "mosaic" "size")
        (toUnsigned 8 (max data.testMosaic 0))
  let oam := gameUpdate.sprites data snes.oam
  let cgram := memcpy
    ((offsetOf CGRAM.ctype [.field "", .field "objPalettes", .field "palette16s", .index 1]).getD 0)
    ((offsetOf CGRAM.ctype [.field "", .field "objPalettes", .field "palette16s", .index 0]).getD 0)
    ((sizeAt CGRAM.ctype [.field "", .field "objPalettes", .field "palette16s", .index 0]).getD 0)
    snes.cgram
  let snes := (List.range 16).foldl (gameUpdate.fade g.counter)
    { snes with reg := reg, oam := oam, cgram := cgram }
  let counter2 := wrapInt32 (g.counter2 + 1)
  let counter := if Int.tmod counter2 4 = 0 then wrapInt32 (g.counter + 1) else g.counter
  { snes := snes, counter := counter, counter2 := counter2 }

/-- The state after `k` calls of `gameUpdate`, the call number `i + 1` reading the
application data `data i`. -/
def gameUpdates (data : Nat → AppData) : Nat → GameState → GameState
  | 0, g => g
  | k + 1, g => gameUpdate (data k) (gameUpdates data k g)

/-- The state `_setupTestSNES` leaves, as far as the frame update depends on it: the
registers it assigns, the two static counters at their initial 0, and whatever CGRAM,
VRAM and OAM hold. -/
def _setupTestSNES.state (cgram vram oam reg : Mem) : GameState :=
  { snes := { cgram := cgram, vram := vram, oam := oam, reg := _setupTestSNES.registers reg }
    counter := 0
    counter2 := 0 }

/-- The assignments to OAM that the body of the sprite loop makes for `(x, y)`, in
order, with sprite `idx`'s secondary slot written as `OAM.x9 idx`, `OAM.sz idx`. -/
def gameUpdate.spriteStores (data : AppData) (x y : Nat) : List (List Step × Nat) :=
  [(OAM.x9 (y * 2 + x), toUnsigned 9 (data.testX + x * 64) / 256),
    (OAM.sz (y * 2 + x), 1),
    (OAM.primary (y * 2 + x) "x", toUnsigned 8 (data.testX + x * 64)),
    (OAM.primary (y * 2 + x) "y", toUnsigned 8 (data.testY + y * 64)),
    (OAM.primary (y * 2 + x) "priority", 3),
    (OAM.primary (y * 2 + x) "palette", 1)] ++
  (if x % 2 ≠ 0 then [(OAM.primary (y * 2 + x) "flipX", 1)] else []) ++
  (if y % 2 ≠ 0 then [(OAM.primary (y * 2 + x) "flipY", 1)] else [])

/-- The assignments to OAM of one `gameUpdate`, in order. -/
def gameUpdate.oamStores (data : AppData) : List (List Step × Nat) :=
  gameUpdate.spriteStores data 0 0 ++ gameUpdate.spriteStores data 1 0 ++
    gameUpdate.spriteStores data 0 1 ++ gameUpdate.spriteStores data 1 1

/-- The lvalues of OAM that one `gameUpdate` assigns, in order. -/
def gameUpdate.oamPaths : List (List Step) :=
  (gameUpdate.oamStores ⟨0, 0, 0, 0, 0⟩).map Prod.fst

/-- Modelled from the spec: the renderer resolves the X of a sprite from
`(x9 << 8) | primary.x` read as 9-bit signed: 256 and above stand for the value minus
512. -/
def objResolveX (x9 x : Nat) : Int :=
  let v : Int := ((x9 <<< 8) ||| x : Nat)
  if v ≥ 256 then v - 512 else v

/-! ## Database connection (DB.c 9-52) -/

/-- The return codes `DB_SUCCESS` and `DB_FAILURE` of `DB.h`, which is not among the
sources. -/
inductive DBResult where
  | DB_SUCCESS : DBResult
  | DB_FAILURE : DBResult
  deriving DecidableEq, Repr

/-- The constant `SQLITE_OK` of sqlite3.h. -/
def SQLITE_OK : Int := 0

/-- The constant `SQLITE_OPEN_READWRITE` of sqlite3.h. -/
def SQLITE_OPEN_READWRITE : Nat := 0x00000002

/-- The constant `SQLITE_OPEN_CREATE` of sqlite3.h. -/
def SQLITE_OPEN_CREATE : Nat := 0x00000004

/-- The members of `DBBase` that `dbConnect` uses (`DB.h` is not among the sources):
the connection handle (`none` for `NULL`), the member `open`, and the strings `dbPath`
and `err` (`none` for `NULL`). -/
structure DBBase where
  conn : Option Nat
  isOpen : Bool
  dbPath : Option String
  err : Option String
  deriving DecidableEq, Repr

/-- The SQLite library, as far as `dbConnect` calls it: `sqlite3_open_v2` gives a result
code and a handle, `sqlite3_errmsg` a text. -/
structure Sqlite where
  open_v2 : String → Nat → Int × Option Nat
  errmsg : Option Nat → String

/-- A call into the SQLite library. -/
inductive SqliteCall where
  | open_v2 (filename : String) (flags : Nat) : SqliteCall
  | errmsg (conn : Option Nat) : SqliteCall
  | close (conn : Option Nat) : SqliteCall
  deriving DecidableEq, Repr

/-- The function `stringEqualRaw` of `libutils/String.h`, which is not among the
sources: whether a string object holds the given text. -/
def stringEqualRaw (s : Option String) (raw : String) : Bool := s == some raw

/-- The function `dbConnect`, for a non-null `self`: the return code, the handle
afterwards and the SQLite calls made, in order. -/
def dbConnect (sql : Sqlite) (self : DBBase) (filename : String) (create : Bool) :
    DBResult × DBBase × List SqliteCall :=
  let flags := SQLITE_OPEN_READWRITE
  let flags := if create then flags ||| SQLITE_OPEN_CREATE else flags
  let self := { self with err := some "" }
  if self.isOpen then
    if stringEqualRaw self.dbPath filename then
      (.DB_SUCCESS, self, [])
    else
      (.DB_FAILURE, { self with err := some "Database already open." }, [])
  else
    let opened := sql.open_v2 filename flags
    let self := { self with conn := opened.2 }
    if opened.1 ≠ SQLITE_OK then
      (.DB_FAILURE, { self with err := some (sql.errmsg self.conn), conn := none },
        [.open_v2 filename flags, .errmsg self.conn, .close self.conn])
    else
      (.DB_SUCCESS, { self with dbPath := some filename, isOpen := true },
        [.open_v2 filename flags])

/-! ## Sequences of assignments -/

/-- Memory after the assignments `lvalue = value` of a list, first to last. -/
def stores (t : CType) (l : List (List Step × Nat)) (m : Mem) : Mem :=
  l.foldl (fun m pv => store t pv.1 pv.2 m) m

/-- What a sequence of assignments does to one lvalue: nothing, or the assignment at an
index decides its value, or neither is known. -/
inductive Effect where
  | unchanged : Effect
  | assigned (i : Nat) : Effect
  | unknown : Effect
  deriving DecidableEq, Repr

/-- Whether an assignment to storage `a` cannot change what is read from storage `b`:
the units share no byte, or they are the same unit and the bit ranges share no bit. -/
def disjointStorage (a b : Nat × Nat × Nat × Nat) : Bool :=
  (b.1 + b.2.1 ≤ a.1 || a.1 + a.2.1 ≤ b.1) ||
    (a.1 = b.1 && a.2.1 = b.2.1 && a.2.2.1 + a.2.2.2 ≤ 8 * a.2.1 &&
      (b.2.2.1 + b.2.2.2 ≤ a.2.2.1 || a.2.2.1 + a.2.2.2 ≤ b.2.2.1))

/-- Effect on the storage `sq` of assignments to the lvalues `ps`, given last to
first. -/
def effectRev (t : CType) (sq : Nat × Nat × Nat × Nat) : List (List Step) → Effect
  | [] => .unchanged
  | p :: earlier =>
    match storageOf t p with
    | none => effectRev t sq earlier
    | some sp =>
      if sp = sq ∧ sq.2.2.1 + sq.2.2.2 ≤ 8 * sq.2.1 then .assigned earlier.length
      else if disjointStorage sp sq then effectRev t sq earlier
      else .unknown

/-- Effect on the lvalue `q` of assignments to the lvalues `ps`, given first to last. -/
def effectOn (t : CType) (q : List Step) (ps : List (List Step)) : Effect :=
  match storageOf t q with
  | none => .unknown
  | some sq => effectRev t sq ps.reverse

/-- Whether the unit of every lvalue of `ps` lies inside one of the byte ranges
`[lo, hi)` of `rs`. -/
def coveredBy (t : CType) (ps : List (List Step)) (rs : List (Nat × Nat)) : Bool :=
  ps.all fun p =>
    match storageOf t p with
    | none => true
    | some s => rs.any fun r => r.1 ≤ s.1 && s.1 + s.2.1 ≤ r.2

/-! ## Lemmas on bit operations -/

/-- On 5-bit values the stretch is `8c + c/4`, fits a byte, and its top five bits are
the input. -/
theorem stretch5_spec (c : Nat) (h : c < 32) :
    stretch5 c = 8 * c + c / 4 ∧ stretch5 c < 256 ∧ stretch5 c >>> 3 = c := by
  have key : ∀ d : Fin 32, stretch5 d.val = 8 * d.val + d.val / 4 ∧ stretch5 d.val < 256 ∧
      stretch5 d.val >>> 3 = d.val := by decide
  exact key ⟨c, h⟩

/-- Bit `j` of the stretched value is bit `j - 3` of the input for the top five bits and
bit `j + 2` for the low three: the pattern `43210432`. -/
theorem stretch5_testBit (c j : Nat) (h : c < 32) (hj : j < 8) :
    (stretch5 c).testBit j = c.testBit (if j < 3 then j + 2 else j - 3) := by
  have key : ∀ d : Fin 32, ∀ k : Fin 8,
      (stretch5 d.val).testBit k.val = d.val.testBit (if k.val < 3 then k.val + 2 else k.val - 3) := by
    decide
  exact key ⟨c, h⟩ ⟨j, hj⟩

/-- A value below `2 ^ s` and a multiple of `2 ^ s` share no bit: or-ing them adds. -/
theorem or_eq_add_of_dvd (a x s : Nat) (h : a < 2 ^ s) (hx : 2 ^ s ∣ x) : a ||| x = a + x := by
  obtain ⟨k, rfl⟩ := hx
  rw [Nat.or_comm, ← Nat.mul_add_lt_is_or h k, Nat.add_comm]

/-- The storage unit of a colour as a sum. -/
theorem SNESColor.word_eq_sum (c : SNESColor) (h : c.valid) :
    c.word = c.r + 32 * c.g + 1024 * c.b := by
  obtain ⟨hr, hg, hb⟩ := h
  simp only [SNESColor.word, SNESColor.fields, packBits, SNESColor.get]
  simp only [String.reduceEq, if_true, if_false, reduceIte]
  norm_num [Nat.shiftLeft_eq, Nat.mod_eq_of_lt hr, Nat.mod_eq_of_lt hg, Nat.mod_eq_of_lt hb]
  rw [or_eq_add_of_dvd (c.g * 32) (c.b * 1024) 10 (by omega) (by omega),
    or_eq_add_of_dvd c.r _ 5 (by omega) (by omega)]
  omega

/-! ## Colour conversion -/

/-- C1: for every `SNESColor` whose channels are 5-bit values, converting to 24 bit with
`snesColorConverTo24Bit` and back with `snesColorConvertFrom24Bit` returns the colour:
each of `r`, `g`, `b` comes back unchanged. -/
theorem snesColor_roundtrip (c : SNESColor) (h : c.valid) :
    snesColorConvertFrom24Bit (snesColorConverTo24Bit c) = c := by
  obtain ⟨r, g, b⟩ := c
  obtain ⟨hr, hg, hb⟩ := h
  obtain ⟨-, r1, r2⟩ := stretch5_spec r hr
  obtain ⟨-, g1, g2⟩ := stretch5_spec g hg
  obtain ⟨-, b1, b2⟩ := stretch5_spec b hb
  simp only [snesColorConverTo24Bit, snesColorConvertFrom24Bit, Nat.mod_eq_of_lt r1,
    Nat.mod_eq_of_lt g1, Nat.mod_eq_of_lt b1, r2, g2, b2, Nat.mod_eq_of_lt hr,
    Nat.mod_eq_of_lt hg, Nat.mod_eq_of_lt hb]

/-- Witness of C1 at the colour (31, 7, 0). -/
theorem snesColor_roundtrip_witness :
    snesColorConvertFrom24Bit (snesColorConverTo24Bit ⟨31, 7, 0⟩) = ⟨31, 7, 0⟩ :=
  snesColor_roundtrip ⟨31, 7, 0⟩ (by decide)

/-- C2: for every `SNESColor` with 5-bit channels `snesColorConverTo24Bit` gives
alpha 255 and, channel by channel, `(c << 3) | (c >> 2) = 8 * c + c / 4`, which is below
256 so the store into the byte truncates nothing; output bit `j` is input bit `j - 3` for
`j ≥ 3` and input bit `j + 2` below (pattern `43210432`); channel 0 gives 0, channel 31
gives 255 and `{31,0,0}` becomes `{255,0,0,255}`. -/
theorem snesColorConverTo24Bit_spec (c : SNESColor) (h : c.valid) (j : Nat) (hj : j < 8) :
    (snesColorConverTo24Bit c).a = 255 ∧
    (snesColorConverTo24Bit c).r = (c.r <<< 3) ||| (c.r >>> 2) ∧
    (snesColorConverTo24Bit c).g = (c.g <<< 3) ||| (c.g >>> 2) ∧
    (snesColorConverTo24Bit c).b = (c.b <<< 3) ||| (c.b >>> 2) ∧
    (snesColorConverTo24Bit c).r = 8 * c.r + c.r / 4 ∧
    (snesColorConverTo24Bit c).g = 8 * c.g + c.g / 4 ∧
    (snesColorConverTo24Bit c).b = 8 * c.b + c.b / 4 ∧
    ((c.r <<< 3) ||| (c.r >>> 2)) < 256 ∧
    ((c.g <<< 3) ||| (c.g >>> 2)) < 256 ∧
    ((c.b <<< 3) ||| (c.b >>> 2)) < 256 ∧
    (snesColorConverTo24Bit c).r.testBit j = c.r.testBit (if j < 3 then j + 2 else j - 3) ∧
    (snesColorConverTo24Bit c).g.testBit j = c.g.testBit (if j < 3 then j + 2 else j - 3) ∧
    (snesColorConverTo24Bit c).b.testBit j = c.b.testBit (if j < 3 then j + 2 else j - 3) ∧
    (snesColorConverTo24Bit ⟨0, 0, 0⟩) = ⟨0, 0, 0, 255⟩ ∧
    (snesColorConverTo24Bit ⟨31, 31, 31⟩) = ⟨255, 255, 255, 255⟩ ∧
    (snesColorConverTo24Bit ⟨31, 0, 0⟩) = ⟨255, 0, 0, 255⟩ := by
  obtain ⟨r, g, b⟩ := c
  obtain ⟨hr, hg, hb⟩ := h
  obtain ⟨r0, r1, -⟩ := stretch5_spec r hr
  obtain ⟨g0, g1, -⟩ := stretch5_spec g hg
  obtain ⟨b0, b1, -⟩ := stretch5_spec b hb
  have tr := stretch5_testBit r j hr hj
  have tg := stretch5_testBit g j hg hj
  have tb := stretch5_testBit b j hb hj
  have cr : (r <<< 3) ||| (r >>> 2) = stretch5 r := Nat.or_comm _ _
  have cg : (g <<< 3) ||| (g >>> 2) = stretch5 g := Nat.or_comm _ _
  have cb : (b <<< 3) ||| (b >>> 2) = stretch5 b := Nat.or_comm _ _
  simp only [snesColorConverTo24Bit, cr, cg, cb, Nat.mod_eq_of_lt r1, Nat.mod_eq_of_lt g1,
    Nat.mod_eq_of_lt b1]
  refine ⟨trivial, trivial, trivial, trivial, r0, g0, b0, r1, g1, b1, tr, tg, tb, ?_, ?_, ?_⟩ <;>
    decide

/-- Witness of C2 at the colour (31, 16, 5) and output bit 2. -/
theorem snesColorConverTo24Bit_spec_witness :
    (snesColorConverTo24Bit ⟨31, 16, 5⟩).a = 255 ∧
    (snesColorConverTo24Bit ⟨31, 16, 5⟩).g = 8 * 16 + 16 / 4 ∧
    (snesColorConverTo24Bit ⟨31, 16, 5⟩) = ⟨255, 132, 41, 255⟩ :=
  have h := snesColorConverTo24Bit_spec ⟨31, 16, 5⟩ (by decide) 2 (by decide)
  ⟨h.1, h.2.2.2.2.2.1, by decide⟩

/-- C3: for every RGBA value with 8-bit channels `snesColorConvertFrom24Bit` gives
`c8 >> 3` on each of `r`, `g`, `b`, a value in 0..31, and an input `y` that has the same
top five bits on each of the three channels (whatever its low three bits and its alpha)
converts to the same `SNESColor`. -/
theorem snesColorConvertFrom24Bit_spec (x y : ColorRGBA) (hx : x.valid)
    (hr : x.r >>> 3 = y.r >>> 3) (hg : x.g >>> 3 = y.g >>> 3) (hb : x.b >>> 3 = y.b >>> 3) :
    (snesColorConvertFrom24Bit x).r = x.r >>> 3 ∧
    (snesColorConvertFrom24Bit x).g = x.g >>> 3 ∧
    (snesColorConvertFrom24Bit x).b = x.b >>> 3 ∧
    (snesColorConvertFrom24Bit x).valid ∧
    snesColorConvertFrom24Bit x = snesColorConvertFrom24Bit y := by
  obtain ⟨xr, xg, xb, xa⟩ := x
  obtain ⟨h1, h2, h3, -⟩ := hx
  simp only at h1 h2 h3 hr hg hb
  have e1 : xr >>> 3 < 32 := by rw [Nat.shiftRight_eq_div_pow]; omega
  have e2 : xg >>> 3 < 32 := by rw [Nat.shiftRight_eq_div_pow]; omega
  have e3 : xb >>> 3 < 32 := by rw [Nat.shiftRight_eq_div_pow]; omega
  refine ⟨Nat.mod_eq_of_lt e1, Nat.mod_eq_of_lt e2, Nat.mod_eq_of_lt e3,
    ⟨Nat.mod_lt _ (by decide), Nat.mod_lt _ (by decide), Nat.mod_lt _ (by decide)⟩, ?_⟩
  simp only [snesColorConvertFrom24Bit, hr, hg, hb]

/-- Witness of C3: (255, 8, 17, 255) and (248, 15, 16, 0) differ in low bits and alpha
only. -/
theorem snesColorConvertFrom24Bit_spec_witness :
    (snesColorConvertFrom24Bit ⟨255, 8, 17, 255⟩).r = 255 >>> 3 ∧
    snesColorConvertFrom24Bit ⟨255, 8, 17, 255⟩ = snesColorConvertFrom24Bit ⟨248, 15, 16, 0⟩ :=
  have h := snesColorConvertFrom24Bit_spec ⟨255, 8, 17, 255⟩ ⟨248, 15, 16, 0⟩ (by decide)
    (by decide) (by decide) (by decide)
  ⟨h.1, h.2.2.2.2⟩

/-- C4: an `SNESColor` with 5-bit channels takes 2 bytes; its 16-bit unit is
`r + 32 * g + 1024 * b` with bit 15 zero, stored little-endian as the bytes `gggrrrrr`
and `0bbbbbgg`; the fields `r`, `g`, `b` are the bits 0-4, 5-9 and 10-14 of the unit and
reading them from the unit returns `r`, `g` and `b`. -/
theorem snesColor_layout (c : SNESColor) (h : c.valid) :
    SNESColor.ctype.sizeof = 2 ∧
    c.word = c.r + 32 * c.g + 1024 * c.b ∧
    c.word < 2 ^ 15 ∧
    c.bytes = [32 * (c.g % 8) + c.r, 4 * c.b + c.g / 8] ∧
    bitsOf SNESColor.ctype [.field "r"] = some (0, 0, 5) ∧
    bitsOf SNESColor.ctype [.field "g"] = some (0, 5, 5) ∧
    bitsOf SNESColor.ctype [.field "b"] = some (0, 10, 5) ∧
    readField SNESColor.ctype "r" c.word = c.r ∧
    readField SNESColor.ctype "g" c.word = c.g ∧
    readField SNESColor.ctype "b" c.word = c.b := by
  have hw := SNESColor.word_eq_sum c h
  obtain ⟨hr, hg, hb⟩ := h
  have fr : ∀ w, readField SNESColor.ctype "r" w = w / 1 % 32 := fun w => by
    show getBits w 0 5 = _
    simp [getBits, Nat.shiftRight_eq_div_pow]
  have fg : ∀ w, readField SNESColor.ctype "g" w = w / 32 % 32 := fun w => by
    show getBits w 5 5 = _
    simp [getBits, Nat.shiftRight_eq_div_pow]
  have fb : ∀ w, readField SNESColor.ctype "b" w = w / 1024 % 32 := fun w => by
    show getBits w 10 5 = _
    simp [getBits, Nat.shiftRight_eq_div_pow]
  refine ⟨by decide, hw, ?_, ?_, by decide, by decide, by decide, ?_, ?_, ?_⟩
  · rw [hw]; norm_num; omega
  · simp only [SNESColor.bytes, hw]
    congr 1
    · omega
    · congr 1; omega
  · rw [fr, hw]; omega
  · rw [fg, hw]; omega
  · rw [fb, hw]; omega

/-- Witness of C4 at the colour (31, 9, 20). -/
theorem snesColor_layout_witness :
    (SNESColor.mk 31 9 20).word = 31 + 32 * 9 + 1024 * 20 ∧
    readField SNESColor.ctype "g" (SNESColor.mk 31 9 20).word = 9 :=
  have h := snesColor_layout ⟨31, 9, 20⟩ (by decide)
  ⟨h.2.1, h.2.2.2.2.2.2.2.2.1⟩

/-! ## Characters and tiles -/

/-- C5: a `Char4` is 16 bytes, a `Char16` 32 and a `Char256` 64; bit-plane `k` of pixel
row `r` is the byte at offset `16 * (k / 2) + 2 * r + k % 2` of the character, inside
the character for every row below 8 and every plane the character has; the planes of
row 0 are at offsets 0,1, at 0,1,16,17 and at 0,1,16,17,32,33,48,49. -/
theorem char_plane_offsets (r k : Nat) (hr : r < 8) (hk : k < 8) :
    Char4.ctype.sizeof = 16 ∧ Char16.ctype.sizeof = 32 ∧ Char256.ctype.sizeof = 64 ∧
    (k < 2 → offsetOf Char4.ctype (Char4.plane r k) = some (16 * (k / 2) + 2 * r + k % 2) ∧
      sizeAt Char4.ctype (Char4.plane r k) = some 1 ∧
      16 * (k / 2) + 2 * r + k % 2 < 16) ∧
    (k < 4 → offsetOf Char16.ctype (Char16.plane r k) = some (16 * (k / 2) + 2 * r + k % 2) ∧
      sizeAt Char16.ctype (Char16.plane r k) = some 1 ∧
      16 * (k / 2) + 2 * r + k % 2 < 32) ∧
    offsetOf Char256.ctype (Char256.plane r k) = some (16 * (k / 2) + 2 * r + k % 2) ∧
    sizeAt Char256.ctype (Char256.plane r k) = some 1 ∧
    16 * (k / 2) + 2 * r + k % 2 < 64 ∧
    (List.range 2).map (fun n => offsetOf Char4.ctype (Char4.plane 0 n)) = [some 0, some 1] ∧
    (List.range 4).map (fun n => offsetOf Char16.ctype (Char16.plane 0 n)) =
      [some 0, some 1, some 16, some 17] ∧
    (List.range 8).map (fun n => offsetOf Char256.ctype (Char256.plane 0 n)) =
      [some 0, some 1, some 16, some 17, some 32, some 33, some 48, some 49] := by
  have key : ∀ a : Fin 8, ∀ c : Fin 8,
      (c.val < 2 → offsetOf Char4.ctype (Char4.plane a.val c.val) =
          some (16 * (c.val / 2) + 2 * a.val + c.val % 2) ∧
        sizeAt Char4.ctype (Char4.plane a.val c.val) = some 1 ∧
        16 * (c.val / 2) + 2 * a.val + c.val % 2 < 16) ∧
      (c.val < 4 → offsetOf Char16.ctype (Char16.plane a.val c.val) =
          some (16 * (c.val / 2) + 2 * a.val + c.val % 2) ∧
        sizeAt Char16.ctype (Char16.plane a.val c.val) = some 1 ∧
        16 * (c.val / 2) + 2 * a.val + c.val % 2 < 32) ∧
      offsetOf Char256.ctype (Char256.plane a.val c.val) =
        some (16 * (c.val / 2) + 2 * a.val + c.val % 2) ∧
      sizeAt Char256.ctype (Char256.plane a.val c.val) = some 1 ∧
      16 * (c.val / 2) + 2 * a.val + c.val % 2 < 64 := by decide
  exact ⟨by decide, by decide, by decide, (key ⟨r, hr⟩ ⟨k, hk⟩).1, (key ⟨r, hr⟩ ⟨k, hk⟩).2.1,
    (key ⟨r, hr⟩ ⟨k, hk⟩).2.2.1, (key ⟨r, hr⟩ ⟨k, hk⟩).2.2.2.1, (key ⟨r, hr⟩ ⟨k, hk⟩).2.2.2.2,
    by decide, by decide, by decide⟩

/-- Witness of C5 at row 5, plane 3: offset 27 in a `Char16` and in a `Char256`. -/
theorem char_plane_offsets_witness :
    offsetOf Char16.ctype (Char16.plane 5 3) = some 27 ∧
    offsetOf Char256.ctype (Char256.plane 5 3) = some 27 :=
  have h := char_plane_offsets 5 3 (by decide) (by decide)
  ⟨(h.2.2.2.2.1 (by decide)).1, h.2.2.2.2.2.1⟩

/-- The storage unit of a standard tile as a sum. -/
theorem Tile.tileWord_eq_sum (t : Tile) (h : t.valid) :
    t.word = t.character + 1024 * t.palette + 8192 * t.priority + 16384 * t.flipX +
      32768 * t.flipY := by
  obtain ⟨h1, h2, h3, h4, h5⟩ := h
  simp only [Tile.word, Tile.tileFields, packBits, Tile.get]
  simp only [String.reduceEq, if_true, if_false, reduceIte]
  norm_num [Nat.shiftLeft_eq, Nat.mod_eq_of_lt h1, Nat.mod_eq_of_lt h2, Nat.mod_eq_of_lt h3,
    Nat.mod_eq_of_lt h4, Nat.mod_eq_of_lt h5]
  rw [or_eq_add_of_dvd (t.flipX * 16384) (t.flipY * 32768) 15 (by omega) (by omega),
    or_eq_add_of_dvd (t.priority * 8192) _ 14 (by omega) (by omega),
    or_eq_add_of_dvd (t.palette * 1024) _ 13 (by omega) (by omega),
    or_eq_add_of_dvd t.character _ 10 (by omega) (by omega)]
  omega

/-- The or of the shifted fields of a tile, as the claim writes it, is their sum. -/
theorem Tile.or_eq (t : Tile) (h : t.valid) :
    (t.character ||| (t.palette <<< 10) ||| (t.priority <<< 13) ||| (t.flipX <<< 14) |||
      (t.flipY <<< 15)) =
    t.character + 1024 * t.palette + 8192 * t.priority + 16384 * t.flipX +
      32768 * t.flipY := by
  obtain ⟨h1, h2, h3, h4, h5⟩ := h
  norm_num [Nat.shiftLeft_eq]
  rw [or_eq_add_of_dvd t.character (t.palette * 1024) 10 (by omega) (by omega),
    or_eq_add_of_dvd _ (t.priority * 8192) 13 (by omega) (by omega),
    or_eq_add_of_dvd _ (t.flipX * 16384) 14 (by omega) (by omega),
    or_eq_add_of_dvd _ (t.flipY * 32768) 15 (by omega) (by omega)]
  omega

/-- The fields read from a word, as quotients and remainders. -/
theorem Tile.ofWord_eq (w : Nat) :
    Tile.ofWord w = ⟨w % 1024, w / 1024 % 8, w / 8192 % 2, w / 16384 % 2, w / 32768 % 2⟩ := by
  show Tile.mk (getBits w 0 10) (getBits w 10 3) (getBits w 13 1) (getBits w 14 1)
    (getBits w 15 1) = _
  simp [getBits, Nat.shiftRight_eq_div_pow]

/-- C6: a standard `Tile` is exactly 16 bits: the fields `character`, `palette`,
`priority`, `flipX`, `flipY` are the bits 0-9, 10-12, 13, 14 and 15 of one 2-byte unit;
for field values of the declared widths the unit is
`character | palette<<10 | priority<<13 | flipX<<14 | flipY<<15`; and reading the five
fields from any 16-bit word and packing them again gives the word back. -/
theorem tile_word_layout (t : Tile) (ht : t.valid) (w : Nat) (hw : w < 65536) :
    Tile.ctype.sizeof = 2 ∧ Tile.tileCType.sizeof = 2 ∧
    bitsOf Tile.ctype [.field "", .field "tile", .field "character"] = some (0, 0, 10) ∧
    bitsOf Tile.ctype [.field "", .field "tile", .field "palette"] = some (0, 10, 3) ∧
    bitsOf Tile.ctype [.field "", .field "tile", .field "priority"] = some (0, 13, 1) ∧
    bitsOf Tile.ctype [.field "", .field "tile", .field "flipX"] = some (0, 14, 1) ∧
    bitsOf Tile.ctype [.field "", .field "tile", .field "flipY"] = some (0, 15, 1) ∧
    t.word = (t.character ||| (t.palette <<< 10) ||| (t.priority <<< 13) |||
      (t.flipX <<< 14) ||| (t.flipY <<< 15)) ∧
    t.word < 65536 ∧
    Tile.ofWord t.word = t ∧
    (Tile.ofWord w).valid ∧
    (Tile.ofWord w).word = w := by
  have hv : (Tile.ofWord w).valid := by
    rw [Tile.ofWord_eq]
    exact ⟨Nat.mod_lt _ (by decide), Nat.mod_lt _ (by decide), Nat.mod_lt _ (by decide),
      Nat.mod_lt _ (by decide), Nat.mod_lt _ (by decide)⟩
  have hwd := Tile.tileWord_eq_sum t ht
  have hback := Tile.tileWord_eq_sum _ hv
  refine ⟨by decide, by decide, by decide, by decide, by decide, by decide, by decide, ?_, ?_,
    ?_, hv, ?_⟩
  · rw [hwd, Tile.or_eq t ht]
  · obtain ⟨h1, h2, h3, h4, h5⟩ := ht
    omega
  · obtain ⟨c, p, q, x, y⟩ := t
    obtain ⟨h1, h2, h3, h4, h5⟩ := ht
    simp only at h1 h2 h3 h4 h5 hwd
    rw [Tile.ofWord_eq, hwd]
    simp only [Tile.mk.injEq]
    refine ⟨?_, ?_, ?_, ?_, ?_⟩ <;> omega
  · rw [hback, Tile.ofWord_eq]
    simp only
    omega

/-- Witness of C6 at the tile (character 1023, palette 5, priority 1, no flip) and the
word 0xBEEF. -/
theorem tile_word_layout_witness :
    (Tile.mk 1023 5 1 0 0).word = (1023 ||| (5 <<< 10) ||| (1 <<< 13) ||| (0 <<< 14) |||
      (0 <<< 15)) ∧
    (Tile.ofWord 0xBEEF).word = 0xBEEF :=
  have h := tile_word_layout ⟨1023, 5, 1, 0, 0⟩ (by decide) 0xBEEF (by decide)
  ⟨h.2.2.2.2.2.2.2.1, h.2.2.2.2.2.2.2.2.2.2.2⟩

/-! ## CGRAM views -/

/-- Entry `e` of the flat view is the two bytes at `2 * e`. -/
theorem CGRAM.colors_off (e : Nat) (h : e < 256) :
    offsetOf CGRAM.ctype (CGRAM.colors e) = some (2 * e) ∧
    sizeAt CGRAM.ctype (CGRAM.colors e) = some 2 := by
  simp [offsetOf, sizeAt, locate, CGRAM.colors, CGRAM.ctype, locateFrom, Members.findStruct,
    Members.findUnion, h, CType.sizeof, SNESColor.ctype, Members.structSize, bitsUnits,
    SNESColor.fields, Nat.mul_comm]

/-- Byte offset of `bgPalette16s[p].colors[i]`. -/
theorem CGRAM.bgPalette16s_off (p i : Nat) (hp : p < 8) (hi : i < 16) :
    offsetOf CGRAM.ctype (CGRAM.bgPalette16s p i) = some (2 * (16 * p + i)) := by
  simp [offsetOf, locate, CGRAM.bgPalette16s, CGRAM.ctype, locateFrom, Members.findStruct,
    Members.findUnion, hp, hi, CType.sizeof, SNESColor.ctype, Members.structSize, bitsUnits,
    SNESColor.fields]
  omega

/-- Byte offset of `bgPalette4s[p].colors[j]`. -/
theorem CGRAM.bgPalette4s_off (p j : Nat) (hp : p < 8) (hj : j < 4) :
    offsetOf CGRAM.ctype (CGRAM.bgPalette4s p j) = some (2 * (4 * p + j)) := by
  simp [offsetOf, locate, CGRAM.bgPalette4s, CGRAM.ctype, locateFrom, Members.findStruct,
    Members.findUnion, hp, hj, CType.sizeof, SNESColor.ctype, Members.structSize, bitsUnits,
    SNESColor.fields]
  omega

/-- Byte offset of `mode0BGPalettes[b].palette4s[p].colors[j]`. -/
theorem CGRAM.mode0BGPalettes_off (b p j : Nat) (hb : b < 4) (hp : p < 8) (hj : j < 4) :
    offsetOf CGRAM.ctype (CGRAM.mode0BGPalettes b p j) = some (2 * (32 * b + 4 * p + j)) := by
  simp [offsetOf, locate, CGRAM.mode0BGPalettes, CGRAM.ctype, locateFrom, Members.findStruct,
    Members.findUnion, hb, hp, hj, CType.sizeof, SNESColor.ctype, Members.structSize,
    bitsUnits, SNESColor.fields]
  omega

/-- Byte offset of `objPalettes.palette16s[p].colors[i]`. -/
theorem CGRAM.objPalettes_off (p i : Nat) (hp : p < 8) (hi : i < 16) :
    offsetOf CGRAM.ctype (CGRAM.objPalettes p i) = some (2 * (128 + 16 * p + i)) := by
  simp [offsetOf, locate, CGRAM.objPalettes, CGRAM.ctype, locateFrom, Members.findStruct,
    Members.findUnion, hp, hi, CType.sizeof, SNESColor.ctype, Members.structSize, bitsUnits,
    SNESColor.fields]
  omega

/-- C7: `CGRAM` is 512 bytes, 256 flat colours of 2 bytes, and every typed view is an
index map into them: `bgPalette16s[p].colors[i]` is `colors[16p+i]` (entries 0..127),
`bgPalette4s[p].colors[j]` is `colors[4p+j]` (entries 0..31),
`mode0BGPalettes[b].palette4s[p].colors[j]` is `colors[32b+4p+j]` (entries 0..127) and
`objPalettes.palette16s[p].colors[i]` is `colors[128+16p+i]`; every entry `e` of
128..255 is an OBJ palette entry, and an OBJ palette entry is never at the place of an
entry `(b', q, k)` of a BG palette view. -/
theorem cgram_views (b p i j e b' q k : Nat) (hb : b < 4) (hp : p < 8) (hi : i < 16)
    (hj : j < 4) (he : e < 256) (hb' : b' < 4) (hq : q < 8) (hk : k < 16) :
    CGRAM.ctype.sizeof = 512 ∧
    offsetOf CGRAM.ctype (CGRAM.colors e) = some (2 * e) ∧
    sizeAt CGRAM.ctype (CGRAM.colors e) = some 2 ∧
    (offsetOf CGRAM.ctype (CGRAM.bgPalette16s p i) =
      offsetOf CGRAM.ctype (CGRAM.colors (16 * p + i)) ∧ 16 * p + i < 128) ∧
    (offsetOf CGRAM.ctype (CGRAM.bgPalette4s p j) =
      offsetOf CGRAM.ctype (CGRAM.colors (4 * p + j)) ∧ 4 * p + j < 32) ∧
    (offsetOf CGRAM.ctype (CGRAM.mode0BGPalettes b p j) =
      offsetOf CGRAM.ctype (CGRAM.colors (32 * b + 4 * p + j)) ∧ 32 * b + 4 * p + j < 128) ∧
    (offsetOf CGRAM.ctype (CGRAM.objPalettes p i) =
      offsetOf CGRAM.ctype (CGRAM.colors (128 + 16 * p + i)) ∧
      128 ≤ 128 + 16 * p + i ∧ 128 + 16 * p + i < 256) ∧
    (128 ≤ e → (e - 128) / 16 < 8 ∧ (e - 128) % 16 < 16 ∧
      offsetOf CGRAM.ctype (CGRAM.objPalettes ((e - 128) / 16) ((e - 128) % 16)) =
        offsetOf CGRAM.ctype (CGRAM.colors e)) ∧
    (e < 128 → offsetOf CGRAM.ctype (CGRAM.bgPalette16s (e / 16) (e % 16)) =
      offsetOf CGRAM.ctype (CGRAM.colors e)) ∧
    (e < 128 → offsetOf CGRAM.ctype (CGRAM.mode0BGPalettes (e / 32) (e % 32 / 4) (e % 4)) =
      offsetOf CGRAM.ctype (CGRAM.colors e)) ∧
    (e < 32 → offsetOf CGRAM.ctype (CGRAM.bgPalette4s (e / 4) (e % 4)) =
      offsetOf CGRAM.ctype (CGRAM.colors e)) ∧
    offsetOf CGRAM.ctype (CGRAM.objPalettes p i) ≠
      offsetOf CGRAM.ctype (CGRAM.bgPalette16s q k) ∧
    (k < 4 → offsetOf CGRAM.ctype (CGRAM.objPalettes p i) ≠
      offsetOf CGRAM.ctype (CGRAM.bgPalette4s q k)) ∧
    (k < 4 → offsetOf CGRAM.ctype (CGRAM.objPalettes p i) ≠
      offsetOf CGRAM.ctype (CGRAM.mode0BGPalettes b' q k)) := by
  refine ⟨by decide, (CGRAM.colors_off e he).1, (CGRAM.colors_off e he).2, ⟨?_, by omega⟩,
    ⟨?_, by omega⟩, ⟨?_, by omega⟩, ⟨?_, by omega, by omega⟩, ?_, ?_, ?_, ?_, ?_, ?_, ?_⟩
  · rw [CGRAM.bgPalette16s_off p i hp hi, (CGRAM.colors_off _ (by omega)).1]
  · rw [CGRAM.bgPalette4s_off p j hp hj, (CGRAM.colors_off _ (by omega)).1]
  · rw [CGRAM.mode0BGPalettes_off b p j hb hp hj, (CGRAM.colors_off _ (by omega)).1]
  · rw [CGRAM.objPalettes_off p i hp hi, (CGRAM.colors_off _ (by omega)).1]
  · intro h128
    refine ⟨by omega, by omega, ?_⟩
    rw [CGRAM.objPalettes_off _ _ (by omega) (by omega), (CGRAM.colors_off e he).1]
    exact congrArg some (by omega)
  · intro h
    rw [CGRAM.bgPalette16s_off _ _ (by omega) (by omega), (CGRAM.colors_off e he).1]
    exact congrArg some (by omega)
  · intro h
    rw [CGRAM.mode0BGPalettes_off _ _ _ (by omega) (by omega) (by omega),
      (CGRAM.colors_off e he).1]
    exact congrArg some (by omega)
  · intro h
    rw [CGRAM.bgPalette4s_off _ _ (by omega) (by omega), (CGRAM.colors_off e he).1]
    exact congrArg some (by omega)
  · rw [CGRAM.objPalettes_off p i hp hi, CGRAM.bgPalette16s_off q k hq hk]
    intro h; injection h; omega
  · intro h4
    rw [CGRAM.objPalettes_off p i hp hi, CGRAM.bgPalette4s_off q k hq h4]
    intro h; injection h; omega
  · intro h4
    rw [CGRAM.objPalettes_off p i hp hi, CGRAM.mode0BGPalettes_off b' q k hb' hq h4]
    intro h; injection h; omega

/-- Witness of C7: OBJ palette 7, colour 15 is the last entry, 255, and mode-0 palette
(3, 7, 3) is entry 127. -/
theorem cgram_views_witness :
    offsetOf CGRAM.ctype (CGRAM.objPalettes 7 15) =
      offsetOf CGRAM.ctype (CGRAM.colors (128 + 16 * 7 + 15)) ∧
    offsetOf CGRAM.ctype (CGRAM.mode0BGPalettes 3 7 3) =
      offsetOf CGRAM.ctype (CGRAM.colors (32 * 3 + 4 * 7 + 3)) ∧
    offsetOf CGRAM.ctype (CGRAM.objPalettes 7 15) ≠
      offsetOf CGRAM.ctype (CGRAM.bgPalette16s 0 0) :=
  have h := cgram_views 3 7 15 3 255 0 0 0 (by decide) (by decide) (by decide) (by decide)
    (by decide) (by decide) (by decide) (by decide)
  ⟨h.2.2.2.2.2.2.1.1, h.2.2.2.2.2.1.1, h.2.2.2.2.2.2.2.2.2.2.2.1⟩

/-! ## VRAM, Mode 1 view -/

/-- C8: the Mode 1 view of VRAM is 65536 bytes, all of VRAM, and its members follow one
another without a gap: `bg1TMaps` at 0 (8 KiB), `bg2TMaps` at 0x2000 (8 KiB), `objCMaps`
at 0x4000 (two maps of 8 KiB), `bgCMap` at 0x8000 (`color4s` 2 KiB, then `color16s`
28 KiB at 0x8800) and `bg3TMap` at 0xF800, the last 2 KiB. -/
theorem vram_mode1_layout :
    VRAM.ctype.sizeof = 65536 ∧
    VRAM.mode1CType.sizeof = 65536 ∧
    offsetOf VRAM.ctype [.field "", .field "mode1"] = some 0 ∧
    offsetOf VRAM.mode1CType [.field "bg1TMaps"] = some 0 ∧
    sizeAt VRAM.mode1CType [.field "bg1TMaps"] = some 8192 ∧
    offsetOf VRAM.mode1CType [.field "bg2TMaps"] = some 0x2000 ∧
    sizeAt VRAM.mode1CType [.field "bg2TMaps"] = some 8192 ∧
    offsetOf VRAM.mode1CType [.field "objCMaps"] = some 0x4000 ∧
    sizeAt VRAM.mode1CType [.field "objCMaps"] = some (2 * 8192) ∧
    sizeAt VRAM.mode1CType [.field "objCMaps", .index 0] = some 8192 ∧
    offsetOf VRAM.mode1CType [.field "objCMaps", .index 1] = some 0x6000 ∧
    offsetOf VRAM.mode1CType [.field "bgCMap"] = some 0x8000 ∧
    sizeAt VRAM.mode1CType [.field "bgCMap"] = some (2048 + 28672) ∧
    offsetOf VRAM.mode1CType [.field "bgCMap", .field "color4s"] = some 0x8000 ∧
    sizeAt VRAM.mode1CType [.field "bgCMap", .field "color4s"] = some 2048 ∧
    offsetOf VRAM.mode1CType [.field "bgCMap", .field "color16s"] = some 0x8800 ∧
    sizeAt VRAM.mode1CType [.field "bgCMap", .field "color16s"] = some 28672 ∧
    offsetOf VRAM.mode1CType [.field "bg3TMap"] = some 0xF800 ∧
    sizeAt VRAM.mode1CType [.field "bg3TMap"] = some 2048 ∧
    0xF800 + 2048 = 65536 := by
  decide

/-! ## OAM -/

set_option maxRecDepth 20000 in
/-- Places of the members of sprite `n` and of its two secondary bits. -/
theorem OAM.sprite_places (n : Nat) (hn : n < 128) :
    offsetOf OAM.ctype (OAM.primary n "x") = some (4 * n) ∧
    offsetOf OAM.ctype (OAM.primary n "y") = some (4 * n + 1) ∧
    offsetOf OAM.ctype (OAM.primary n "character") = some (4 * n + 2) ∧
    bitsOf OAM.ctype (OAM.primary n "nameTable") = some (4 * n + 3, 0, 1) ∧
    bitsOf OAM.ctype (OAM.primary n "palette") = some (4 * n + 3, 1, 3) ∧
    bitsOf OAM.ctype (OAM.primary n "priority") = some (4 * n + 3, 4, 2) ∧
    bitsOf OAM.ctype (OAM.primary n "flipX") = some (4 * n + 3, 6, 1) ∧
    bitsOf OAM.ctype (OAM.primary n "flipY") = some (4 * n + 3, 7, 1) ∧
    bitsOf OAM.ctype (OAM.x9 n) = some (512 + n / 4, 2 * (n % 4), 1) ∧
    bitsOf OAM.ctype (OAM.sz n) = some (512 + n / 4, 2 * (n % 4) + 1, 1) := by
  have key : ∀ d : Fin 128,
      offsetOf OAM.ctype (OAM.primary d.val "x") = some (4 * d.val) ∧
      offsetOf OAM.ctype (OAM.primary d.val "y") = some (4 * d.val + 1) ∧
      offsetOf OAM.ctype (OAM.primary d.val "character") = some (4 * d.val + 2) ∧
      bitsOf OAM.ctype (OAM.primary d.val "nameTable") = some (4 * d.val + 3, 0, 1) ∧
      bitsOf OAM.ctype (OAM.primary d.val "palette") = some (4 * d.val + 3, 1, 3) ∧
      bitsOf OAM.ctype (OAM.primary d.val "priority") = some (4 * d.val + 3, 4, 2) ∧
      bitsOf OAM.ctype (OAM.primary d.val "flipX") = some (4 * d.val + 3, 6, 1) ∧
      bitsOf OAM.ctype (OAM.primary d.val "flipY") = some (4 * d.val + 3, 7, 1) ∧
      bitsOf OAM.ctype (OAM.x9 d.val) = some (512 + d.val / 4, 2 * (d.val % 4), 1) ∧
      bitsOf OAM.ctype (OAM.sz d.val) = some (512 + d.val / 4, 2 * (d.val % 4) + 1, 1) := by
    decide
  exact key ⟨n, hn⟩

/-- C9: `OAM` is 544 bytes: 128 sprites of 4 bytes (`x`, `y`, `character`, then a byte
with `nameTable` in bit 0, `palette` in bits 1-3, `priority` in bits 4-5, `flipX` in
bit 6, `flipY` in bit 7) followed at byte 512 by 32 secondary bytes; sprite `n` has its
`x9` bit at bit `2 * (n % 4)` and its `sz` bit at bit `2 * (n % 4) + 1` of secondary byte
`n / 4`; different sprites have different bits, no `x9` bit is an `sz` bit, and bit `j`
of secondary byte `k` is the `x9` (even `j`) or `sz` (odd `j`) bit of sprite
`4 * k + j / 2`: the 32 bytes hold one pair for each of the 128 sprites and nothing
else. -/
theorem oam_layout (n m k j : Nat) (hn : n < 128) (hm : m < 128) (hk : k < 32) (hj : j < 8) :
    OAM.ctype.sizeof = 544 ∧ Sprite.ctype.sizeof = 4 ∧
    offsetOf OAM.ctype [.field "primary"] = some 0 ∧
    sizeAt OAM.ctype [.field "primary"] = some (128 * 4) ∧
    offsetOf OAM.ctype [.field "secondary"] = some 512 ∧
    sizeAt OAM.ctype [.field "secondary"] = some 32 ∧
    offsetOf OAM.ctype (OAM.primary n "x") = some (4 * n) ∧
    offsetOf OAM.ctype (OAM.primary n "y") = some (4 * n + 1) ∧
    offsetOf OAM.ctype (OAM.primary n "character") = some (4 * n + 2) ∧
    bitsOf OAM.ctype (OAM.primary n "nameTable") = some (4 * n + 3, 0, 1) ∧
    bitsOf OAM.ctype (OAM.primary n "palette") = some (4 * n + 3, 1, 3) ∧
    bitsOf OAM.ctype (OAM.primary n "priority") = some (4 * n + 3, 4, 2) ∧
    bitsOf OAM.ctype (OAM.primary n "flipX") = some (4 * n + 3, 6, 1) ∧
    bitsOf OAM.ctype (OAM.primary n "flipY") = some (4 * n + 3, 7, 1) ∧
    bitsOf OAM.ctype (OAM.x9 n) = some (512 + n / 4, 2 * (n % 4), 1) ∧
    bitsOf OAM.ctype (OAM.sz n) = some (512 + n / 4, 2 * (n % 4) + 1, 1) ∧
    512 + n / 4 < 544 ∧
    (bitsOf OAM.ctype (OAM.x9 n) = bitsOf OAM.ctype (OAM.x9 m) → n = m) ∧
    (bitsOf OAM.ctype (OAM.sz n) = bitsOf OAM.ctype (OAM.sz m) → n = m) ∧
    bitsOf OAM.ctype (OAM.x9 n) ≠ bitsOf OAM.ctype (OAM.sz m) ∧
    4 * k + j / 2 < 128 ∧
    bitsOf OAM.ctype (if j % 2 = 0 then OAM.x9 (4 * k + j / 2) else OAM.sz (4 * k + j / 2)) =
      some (512 + k, j, 1) := by
  obtain ⟨px, py, pc, b0, b1, b2, b3, b4, xn, sn⟩ := OAM.sprite_places n hn
  obtain ⟨-, -, -, -, -, -, -, -, xm, sm⟩ := OAM.sprite_places m hm
  have hs : 4 * k + j / 2 < 128 := by omega
  obtain ⟨-, -, -, -, -, -, -, -, xs, ss⟩ := OAM.sprite_places (4 * k + j / 2) hs
  refine ⟨by decide, by decide, by decide, by decide, by decide, by decide, px, py, pc, b0,
    b1, b2, b3, b4, xn, sn, by omega, ?_, ?_, ?_, hs, ?_⟩
  · rw [xn, xm]
    simp only [Option.some.injEq, Prod.mk.injEq]
    omega
  · rw [sn, sm]
    simp only [Option.some.injEq, Prod.mk.injEq]
    omega
  · rw [xn, sm]
    simp only [ne_eq, Option.some.injEq, Prod.mk.injEq]
    omega
  · by_cases hpar : j % 2 = 0
    · rw [if_pos hpar, xs]
      simp only [Option.some.injEq, Prod.mk.injEq, and_true]
      refine ⟨?_, ?_⟩ <;> omega
    · rw [if_neg hpar, ss]
      simp only [Option.some.injEq, Prod.mk.injEq, and_true]
      refine ⟨?_, ?_⟩ <;> omega

/-- Witness of C9: sprite 5 has its `x9` bit at bit 2 and its `sz` bit at bit 3 of
byte 513, and bit 7 of secondary byte 31 is the `sz` bit of sprite 127. -/
theorem oam_layout_witness :
    bitsOf OAM.ctype (OAM.x9 5) = some (512 + 5 / 4, 2 * (5 % 4), 1) ∧
    bitsOf OAM.ctype (OAM.sz 5) = some (512 + 5 / 4, 2 * (5 % 4) + 1, 1) ∧
    bitsOf OAM.ctype (if 7 % 2 = 0 then OAM.x9 (4 * 31 + 7 / 2) else OAM.sz (4 * 31 + 7 / 2)) =
      some (512 + 31, 7, 1) :=
  have h := oam_layout 5 9 31 7 (by decide) (by decide) (by decide) (by decide)
  ⟨h.2.2.2.2.2.2.2.2.2.2.2.2.2.2.1, h.2.2.2.2.2.2.2.2.2.2.2.2.2.2.2.1,
    h.2.2.2.2.2.2.2.2.2.2.2.2.2.2.2.2.2.2.2.2.2⟩

/-! ## Output buffer -/

/-- C10: the buffer `_setupRenderData` allocates for `snesRender` has
`SNES_SCANLINE_WIDTH * SNES_SCANLINE_COUNT = 512 * 168 = 86016` pixels; for a source pixel
`x < 256` of scanline `y < 168` the two output indices `y * 512 + 2x` and
`y * 512 + 2x + 1` are inside the buffer; the pairs of two different source pixels
share no index; and every index of the buffer is in the pair of a source pixel. -/
theorem snesBuffer_index_pairs (x y x' y' idx : Nat) (hx : x < SNES_SIZE_X)
    (hy : y < SNES_SIZE_Y) (hx' : x' < SNES_SIZE_X)
    (hne : (x, y) ≠ (x', y')) (hidx : idx < snesBufferLen) :
    SNES_SCANLINE_WIDTH = 512 ∧ SNES_SCANLINE_COUNT = 168 ∧ snesBufferLen = 86016 ∧
    outPair x y = [y * 512 + 2 * x, y * 512 + 2 * x + 1] ∧
    (∀ a ∈ outPair x y, a < snesBufferLen) ∧
    (∀ a ∈ outPair x y, a ∉ outPair x' y') ∧
    idx % 512 / 2 < SNES_SIZE_X ∧ idx / 512 < SNES_SIZE_Y ∧
    idx ∈ outPair (idx % 512 / 2) (idx / 512) := by
  simp only [SNES_SIZE_X, SNES_SIZE_Y, snesBufferLen, SNES_SCANLINE_WIDTH,
    SNES_SCANLINE_COUNT, outPair, outIndex, List.mem_cons, List.mem_singleton,
    List.not_mem_nil, or_false, ne_eq, Prod.mk.injEq] at *
  refine ⟨by norm_num, by norm_num, by norm_num,
    by simp only [Nat.reduceMul, Nat.add_assoc], ?_, ?_, by omega,
    by omega, ?_⟩
  · rintro a (rfl | rfl) <;> omega
  · rintro a (rfl | rfl) <;> omega
  · omega

/-- Witness of C10: source pixels (255, 167) and (0, 0), and the last index 86015. -/
theorem snesBuffer_index_pairs_witness :
    snesBufferLen = 86016 ∧
    outPair 255 167 = [167 * 512 + 2 * 255, 167 * 512 + 2 * 255 + 1] ∧
    86015 ∈ outPair (86015 % 512 / 2) (86015 / 512) :=
  have h := snesBuffer_index_pairs 255 167 0 0 86015 (by decide) (by decide) (by decide)
    (by decide) (by decide)
  ⟨h.2.2.1, h.2.2.2.1, h.2.2.2.2.2.2.2.2⟩

/-! ## Lemmas on byte memory -/

/-- A store of `n` bytes at `off` leaves the bytes outside `[off, off + n)`. -/
theorem storeUnit_outside (n : Nat) (m : Mem) (off v a : Nat) (h : a < off ∨ off + n ≤ a) :
    storeUnit m off n v a = m a := by
  induction n generalizing m off v with
  | zero => rfl
  | succ k ih =>
    rw [storeUnit, ih _ _ _ (by omega)]
    have : a ≠ off := by omega
    simp [this]

/-- A load of `n` bytes at `off` reads the bytes of `[off, off + n)` only. -/
theorem loadUnit_congr (n : Nat) (m m' : Mem) (off : Nat)
    (h : ∀ a, off ≤ a → a < off + n → m a = m' a) : loadUnit m off n = loadUnit m' off n := by
  induction n generalizing off with
  | zero => rfl
  | succ k ih =>
    rw [loadUnit, loadUnit, h off (Nat.le_refl _) (by omega),
      ih (off + 1) (fun a h1 h2 => h a (by omega) (by omega))]

/-- A unit of `n` bytes holds a value below `256 ^ n`. -/
theorem loadUnit_lt (n : Nat) (m : Mem) (off : Nat) : loadUnit m off n < 256 ^ n := by
  induction n generalizing off with
  | zero => simp [loadUnit]
  | succ k ih =>
    have h1 := ih (off + 1)
    have h2 : m off % 256 < 256 := Nat.mod_lt _ (by decide)
    rw [loadUnit, Nat.pow_succ]
    omega

/-- Loading the unit just stored gives the stored value, truncated to the unit. -/
theorem loadUnit_storeUnit (n : Nat) (m : Mem) (off v : Nat) :
    loadUnit (storeUnit m off n v) off n = v % 256 ^ n := by
  induction n generalizing m off v with
  | zero => simp [loadUnit, Nat.mod_one]
  | succ k ih =>
    rw [loadUnit, storeUnit, ih, storeUnit_outside _ _ _ _ _ (Or.inl (Nat.lt_succ_self off))]
    simp only [if_true, Nat.mod_mod]
    rw [Nat.pow_succ, Nat.mul_comm (256 ^ k) 256, Nat.mod_mul]

/-- Reading a bit-field just written gives the written value, truncated to the width. -/
theorem getBits_setBits_same (x s w v : Nat) : getBits (setBits x s w v) s w = v % 2 ^ w := by
  have hs : 0 < 2 ^ s := Nat.two_pow_pos _
  have hr : x % 2 ^ s < 2 ^ s := Nat.mod_lt _ hs
  have hv : v % 2 ^ w < 2 ^ w := Nat.mod_lt _ (Nat.two_pow_pos _)
  have e : setBits x s w v =
      x % 2 ^ s + 2 ^ s * (v % 2 ^ w + 2 ^ w * (x / 2 ^ (s + w))) := by
    rw [setBits, Nat.pow_add]; ring
  rw [getBits, Nat.shiftRight_eq_div_pow, e, Nat.add_mul_div_left _ _ hs,
    Nat.div_eq_of_lt hr, Nat.zero_add, Nat.add_mul_mod_self_left, Nat.mod_eq_of_lt hv]

/-- Writing a bit-field leaves the bit-fields below it. -/
theorem getBits_setBits_below (x s w v s' w' : Nat) (h : s' + w' ≤ s) :
    getBits (setBits x s w v) s' w' = getBits x s' w' := by
  have e : setBits x s w v =
      x % 2 ^ s + 2 ^ s * (v % 2 ^ w + 2 ^ w * (x / 2 ^ (s + w))) := by
    rw [setBits, Nat.pow_add]; ring
  have hd : 2 ^ (s' + w') ∣ 2 ^ s := Nat.pow_dvd_pow 2 h
  have key : ∀ y, getBits y s' w' = y % 2 ^ (s' + w') / 2 ^ s' := fun y => by
    rw [getBits, Nat.shiftRight_eq_div_pow, Nat.pow_add, Nat.mod_mul_right_div_self]
  rw [key, key, e, ← Nat.mod_mod_of_dvd _ hd, Nat.add_mul_mod_self_left, Nat.mod_mod,
    Nat.mod_mod_of_dvd _ hd]

/-- Writing a bit-field leaves the bit-fields above it. -/
theorem getBits_setBits_above (x s w v s' w' : Nat) (h : s + w ≤ s') :
    getBits (setBits x s w v) s' w' = getBits x s' w' := by
  have hp : 0 < 2 ^ (s + w) := Nat.two_pow_pos _
  have hr : x % 2 ^ s < 2 ^ s := Nat.mod_lt _ (Nat.two_pow_pos _)
  have hv : v % 2 ^ w < 2 ^ w := Nat.mod_lt _ (Nat.two_pow_pos _)
  have hlow : x % 2 ^ s + (v % 2 ^ w) * 2 ^ s < 2 ^ (s + w) := by
    rw [Nat.pow_add]
    calc x % 2 ^ s + (v % 2 ^ w) * 2 ^ s < 2 ^ s + (v % 2 ^ w) * 2 ^ s := by omega
      _ = (v % 2 ^ w + 1) * 2 ^ s := by ring
      _ ≤ 2 ^ w * 2 ^ s := Nat.mul_le_mul_right _ hv
      _ = 2 ^ s * 2 ^ w := Nat.mul_comm _ _
  have e : setBits x s w v / 2 ^ (s + w) = x / 2 ^ (s + w) := by
    rw [setBits, Nat.mul_comm (x / 2 ^ (s + w)), Nat.add_mul_div_left _ _ hp,
      Nat.div_eq_of_lt hlow, Nat.zero_add]
  have key : ∀ y, getBits y s' w' = y / 2 ^ (s + w) / 2 ^ (s' - (s + w)) % 2 ^ w' := fun y => by
    rw [getBits, Nat.shiftRight_eq_div_pow, Nat.div_div_eq_div_mul, ← Nat.pow_add,
      Nat.add_sub_cancel' h]
  rw [key, key, e]

/-- Writing a bit-field inside a unit of `k` bits keeps the unit below `2 ^ k`. -/
theorem setBits_lt (x s w v k : Nat) (hx : x < 2 ^ k) (h : s + w ≤ k) :
    setBits x s w v < 2 ^ k := by
  have hp : 0 < 2 ^ (s + w) := Nat.two_pow_pos _
  have hr : x % 2 ^ s < 2 ^ s := Nat.mod_lt _ (Nat.two_pow_pos _)
  have hv : v % 2 ^ w < 2 ^ w := Nat.mod_lt _ (Nat.two_pow_pos _)
  have hlow : x % 2 ^ s + (v % 2 ^ w) * 2 ^ s < 2 ^ (s + w) := by
    rw [Nat.pow_add]
    calc x % 2 ^ s + (v % 2 ^ w) * 2 ^ s < 2 ^ s + (v % 2 ^ w) * 2 ^ s := by omega
      _ = (v % 2 ^ w + 1) * 2 ^ s := by ring
      _ ≤ 2 ^ w * 2 ^ s := Nat.mul_le_mul_right _ hv
      _ = 2 ^ s * 2 ^ w := Nat.mul_comm _ _
  have hk : 2 ^ k = 2 ^ (s + w) * 2 ^ (k - (s + w)) := by
    rw [← Nat.pow_add, Nat.add_sub_cancel' h]
  have hq : x / 2 ^ (s + w) < 2 ^ (k - (s + w)) := by
    rw [Nat.div_lt_iff_lt_mul hp, Nat.mul_comm, ← hk]; exact hx
  rw [setBits, hk]
  calc x % 2 ^ s + (v % 2 ^ w) * 2 ^ s + x / 2 ^ (s + w) * 2 ^ (s + w)
      < 2 ^ (s + w) + x / 2 ^ (s + w) * 2 ^ (s + w) := by omega
    _ = 2 ^ (s + w) * (x / 2 ^ (s + w) + 1) := by ring
    _ ≤ 2 ^ (s + w) * 2 ^ (k - (s + w)) := Nat.mul_le_mul_left _ hq

/-- The value of a unit of `u` bytes is below `2 ^ (8 * u)`. -/
theorem loadUnit_lt_two_pow (u : Nat) (m : Mem) (off : Nat) : loadUnit m off u < 2 ^ (8 * u) := by
  have h := loadUnit_lt u m off
  rwa [show (256 : Nat) = 2 ^ 8 from rfl, ← Nat.pow_mul] at h

/-- An assignment changes no byte outside the unit of its lvalue. -/
theorem store_outside (t : CType) (p : List Step) (v : Nat) (m : Mem) (a o u s w : Nat)
    (hp : storageOf t p = some (o, u, s, w)) (h : a < o ∨ o + u ≤ a) :
    store t p v m a = m a := by
  rw [store, hp]
  exact storeUnit_outside u m o _ a h

/-- The unit of an lvalue after an assignment to it. -/
theorem loadUnit_store (t : CType) (p : List Step) (v : Nat) (m : Mem) (o u s w : Nat)
    (hp : storageOf t p = some (o, u, s, w)) (hw : s + w ≤ 8 * u) :
    loadUnit (store t p v m) o u = setBits (loadUnit m o u) s w v := by
  rw [store, hp]
  simp only
  rw [loadUnit_storeUnit, show (256 : Nat) = 2 ^ 8 from rfl, ← Nat.pow_mul]
  exact Nat.mod_eq_of_lt (setBits_lt _ _ _ _ _ (loadUnit_lt_two_pow u m o) hw)

/-- Reading an lvalue just assigned gives the value, truncated to the width. -/
theorem load_store_same (t : CType) (p : List Step) (v : Nat) (m : Mem) (o u s w : Nat)
    (hp : storageOf t p = some (o, u, s, w)) (hw : s + w ≤ 8 * u) :
    load t p (store t p v m) = v % 2 ^ w := by
  rw [load, hp]
  simp only
  rw [loadUnit_store t p v m o u s w hp hw, getBits_setBits_same]

/-- An assignment to a bit-field leaves the other bit-fields of its unit. -/
theorem load_store_bits (t : CType) (p q : List Step) (v : Nat) (m : Mem)
    (o u s w s' w' : Nat) (hp : storageOf t p = some (o, u, s, w))
    (hq : storageOf t q = some (o, u, s', w')) (hw : s + w ≤ 8 * u)
    (hd : s' + w' ≤ s ∨ s + w ≤ s') :
    load t q (store t p v m) = load t q m := by
  rw [load, load, hq]
  simp only
  rw [loadUnit_store t p v m o u s w hp hw]
  rcases hd with h | h
  · exact getBits_setBits_below _ _ _ _ _ _ h
  · exact getBits_setBits_above _ _ _ _ _ _ h

/-- An assignment leaves every lvalue whose unit is elsewhere. -/
theorem load_store_bytes (t : CType) (p q : List Step) (v : Nat) (m : Mem)
    (o u s w o' u' s' w' : Nat) (hp : storageOf t p = some (o, u, s, w))
    (hq : storageOf t q = some (o', u', s', w')) (hd : o' + u' ≤ o ∨ o + u ≤ o') :
    load t q (store t p v m) = load t q m := by
  rw [load, load, hq]
  simp only
  rw [loadUnit_congr u' _ m o' (fun a h1 h2 =>
    store_outside t p v m a o u s w hp (by omega))]

/-! ## Lemmas on sequences of assignments -/

/-- An assignment to an lvalue that does not exist changes nothing. -/
theorem store_none (t : CType) (p : List Step) (v : Nat) (m : Mem)
    (hp : storageOf t p = none) : store t p v m = m := by
  rw [store, hp]

/-- Appending one assignment to a sequence. -/
theorem stores_append_one (t : CType) (l : List (List Step × Nat)) (p : List Step) (v : Nat)
    (m : Mem) : stores t (l ++ [(p, v)]) m = store t p v (stores t l m) := by
  simp [stores, List.foldl_append]

/-- Two sequences of assignments one after the other. -/
theorem stores_append (t : CType) (l l' : List (List Step × Nat)) (m : Mem) :
    stores t (l ++ l') m = stores t l' (stores t l m) := by
  simp [stores, List.foldl_append]

/-- An assignment leaves what is read from a disjoint storage. -/
theorem load_store_disjoint (t : CType) (p q : List Step) (v : Nat) (m : Mem)
    (sp sq : Nat × Nat × Nat × Nat) (hp : storageOf t p = some sp)
    (hq : storageOf t q = some sq) (hd : disjointStorage sp sq = true) :
    load t q (store t p v m) = load t q m := by
  obtain ⟨o, u, s, w⟩ := sp
  obtain ⟨o', u', s', w'⟩ := sq
  simp only [disjointStorage, Bool.or_eq_true, Bool.and_eq_true, decide_eq_true_eq] at hd
  rcases hd with h | ⟨⟨⟨h1, h2⟩, h3⟩, h4⟩
  · exact load_store_bytes t p q v m o u s w o' u' s' w' hp hq h
  · subst h1; subst h2
    exact load_store_bits t p q v m o u s w s' w' hp hq h3 h4

/-- The index an effect names is inside the list. -/
theorem effectRev_assigned_lt (t : CType) (sq : Nat × Nat × Nat × Nat) (ps : List (List Step))
    (i : Nat) (h : effectRev t sq ps = .assigned i) : i < ps.length := by
  induction ps with
  | nil => simp [effectRev] at h
  | cons p e ih =>
    rw [effectRev] at h
    split at h
    · exact Nat.lt_succ_of_lt (ih h)
    · split at h
      · injection h with h; rw [← h]; exact Nat.lt_succ_self _
      · split at h
        · exact Nat.lt_succ_of_lt (ih h)
        · cases h

/-- Soundness of `effectRev`, for assignments listed last to first. -/
theorem effectRev_sound (t : CType) (q : List Step) (sq : Nat × Nat × Nat × Nat)
    (hq : storageOf t q = some sq) (r : List (List Step × Nat)) (m : Mem) :
    (effectRev t sq (r.map Prod.fst) = .unchanged →
      load t q (stores t r.reverse m) = load t q m) ∧
    (∀ i, effectRev t sq (r.map Prod.fst) = .assigned i →
      load t q (stores t r.reverse m) = (r.reverse.map Prod.snd).getD i 0 % 2 ^ sq.2.2.2) := by
  induction r with
  | nil =>
    refine ⟨fun _ => rfl, fun i h => ?_⟩
    simp [effectRev] at h
  | cons pv e ih =>
    obtain ⟨p, v⟩ := pv
    obtain ⟨ih1, ih2⟩ := ih
    simp only [List.map_cons, List.reverse_cons, stores_append_one, List.map_append,
      List.map_nil]
    rw [effectRev]
    cases hp : storageOf t p with
    | none =>
      simp only
      rw [store_none t p v _ hp]
      refine ⟨ih1, fun i h => ?_⟩
      have hi := effectRev_assigned_lt t sq _ i h
      rw [List.length_map] at hi
      rw [ih2 i h, List.getD_append _ _ _ _ (by simpa using hi)]
    | some sp =>
      simp only
      by_cases hsame : sp = sq ∧ sq.2.2.1 + sq.2.2.2 ≤ 8 * sq.2.1
      · rw [if_pos hsame]
        refine ⟨fun h => (by cases h), fun i h => ?_⟩
        injection h with h
        obtain ⟨h1, h2⟩ := hsame
        subst h1
        obtain ⟨o, u, s, w⟩ := sp
        have hpq : storageOf t p = storageOf t q := by rw [hp, hq]
        have hl : load t q (store t p v (stores t e.reverse m)) =
            load t p (store t p v (stores t e.reverse m)) := by
          rw [load, load, hpq]
        rw [hl, load_store_same t p v _ o u s w hp h2, ← h, List.length_map,
          List.getD_append_right _ _ _ _ (by simp)]
        simp
      · rw [if_neg hsame]
        by_cases hdis : disjointStorage sp sq = true
        · rw [if_pos hdis, load_store_disjoint t p q v _ sp sq hp hq hdis]
          refine ⟨ih1, fun i h => ?_⟩
          have hi := effectRev_assigned_lt t sq _ i h
          rw [List.length_map] at hi
          rw [ih2 i h, List.getD_append _ _ _ _ (by simpa using hi)]
        · rw [if_neg hdis]
          exact ⟨fun h => (by cases h), fun i h => (by cases h)⟩

/-- An lvalue no assignment of a sequence touches reads as before. -/
theorem load_stores_unchanged (t : CType) (q : List Step) (l : List (List Step × Nat))
    (ps : List (List Step)) (m : Mem) (hps : l.map Prod.fst = ps)
    (h : effectOn t q ps = .unchanged) : load t q (stores t l m) = load t q m := by
  subst hps
  rw [effectOn] at h
  cases hq : storageOf t q with
  | none => rw [hq] at h; cases h
  | some sq =>
    rw [hq] at h
    simp only [← List.map_reverse] at h
    have := (effectRev_sound t q sq hq l.reverse m).1 h
    rwa [List.reverse_reverse] at this

/-- An lvalue whose last assignment in a sequence is the one at index `i` reads as the
value assigned there, truncated to the width `w` of the lvalue. -/
theorem load_stores_assigned (t : CType) (q : List Step) (l : List (List Step × Nat))
    (ps : List (List Step)) (m : Mem) (i o u s w : Nat) (hps : l.map Prod.fst = ps)
    (hq : storageOf t q = some (o, u, s, w)) (h : effectOn t q ps = .assigned i) :
    load t q (stores t l m) = (l.map Prod.snd).getD i 0 % 2 ^ w := by
  subst hps
  rw [effectOn, hq] at h
  simp only [← List.map_reverse] at h
  have := (effectRev_sound t q _ hq l.reverse m).2 i h
  rwa [List.reverse_reverse] at this

/-- A sequence of assignments changes no byte outside the byte ranges that cover the
units of its lvalues. -/
theorem stores_outside (t : CType) (l : List (List Step × Nat)) (ps : List (List Step))
    (rs : List (Nat × Nat)) (m : Mem) (a : Nat) (hps : l.map Prod.fst = ps)
    (hc : coveredBy t ps rs = true) (ha : ∀ r ∈ rs, a < r.1 ∨ r.2 ≤ a) :
    stores t l m a = m a := by
  subst hps
  induction l using List.reverseRecOn with
  | nil => rfl
  | append_singleton e pv ih =>
    obtain ⟨p, v⟩ := pv
    rw [stores_append_one]
    simp only [coveredBy, List.map_append, List.map_cons, List.map_nil, List.all_append,
      List.all_cons, List.all_nil, Bool.and_true, Bool.and_eq_true] at hc
    obtain ⟨hc1, hc2⟩ := hc
    have ih' := ih (by simpa [coveredBy] using hc1)
    cases hp : storageOf t p with
    | none => rw [store_none t p v _ hp]; exact ih'
    | some sp =>
      obtain ⟨o, u, s, w⟩ := sp
      rw [hp] at hc2
      simp only [List.any_eq_true, Bool.and_eq_true, decide_eq_true_eq] at hc2
      obtain ⟨r, hr, h1, h2⟩ := hc2
      rw [store_outside t p v _ a o u s w hp (by have := ha r hr; omega)]
      exact ih'


/-! ## Rendering entry point -/

/-- C11: for every PPU state, whatever `out` held and whatever the rasteriser would draw,
`snesRender` called with bit 0 of `flags` (`SNES_RENDER_DEBUG_WHITE`) set writes
`{255,255,255,255}` at every pixel position (column below 512, scanline below 168) of the
output; `_snesSoftwareRender` sets that bit exactly when `snesRenderWhite` is on, so
with it on the whole buffer is white. -/
theorem snesRender_debug_white (raster : SNES → Nat → Nat → ColorRGBA) (S : SNES)
    (out : Nat → ColorRGBA) (flags col y : Nat) (hflag : flags.testBit 0 = true)
    (hcol : col < SNES_SCANLINE_WIDTH) (hy : y < SNES_SCANLINE_COUNT) :
    SNES_RENDER_DEBUG_WHITE = 1 ∧
    (∀ b : Bool, (renderFlags b).testBit 0 = b) ∧
    snesRender raster S out flags (outIndex y col) = ⟨255, 255, 255, 255⟩ ∧
    _snesSoftwareRender raster S true out (outIndex y col) = ⟨255, 255, 255, 255⟩ := by
  have hw : SNES_RENDER_DEBUG_WHITE = 1 := by decide
  have hin : outIndex y col < SNES_SCANLINE_WIDTH * SNES_SCANLINE_COUNT := by
    simp only [outIndex, SNES_SCANLINE_WIDTH, SNES_SCANLINE_COUNT, SNES_SIZE_X, SNES_SIZE_Y]
      at *
    omega
  have hbit : flags &&& SNES_RENDER_DEBUG_WHITE ≠ 0 := by
    rw [hw, Nat.and_one_is_mod]
    rw [Nat.testBit_zero] at hflag
    simpa using hflag
  refine ⟨hw, by decide, ?_, ?_⟩
  · simp only [snesRender, if_pos hin, if_pos hbit]
  · have hb : renderFlags true &&& SNES_RENDER_DEBUG_WHITE ≠ 0 := by decide
    simp only [_snesSoftwareRender, snesRender, if_pos hin, if_pos hb]

/-- Witness of C11: flags 3, the last pixel of the last scanline, a rasteriser that
draws black. -/
theorem snesRender_debug_white_witness :
    snesRender (fun _ _ _ => ⟨0, 0, 0, 255⟩) ⟨fun _ => 0, fun _ => 0, fun _ => 0, fun _ => 0⟩
      (fun _ => ⟨1, 2, 3, 4⟩) 3 (outIndex 167 511) = ⟨255, 255, 255, 255⟩ :=
  (snesRender_debug_white (fun _ _ _ => ⟨0, 0, 0, 255⟩)
    ⟨fun _ => 0, fun _ => 0, fun _ => 0, fun _ => 0⟩ (fun _ => ⟨1, 2, 3, 4⟩) 3 511 167
    (by decide) (by decide) (by decide)).2.2.1

/-! ## Test setup -/

/-- The register assignments of `_setupTestSNES` as a sequence. -/
theorem setupRegisters_eq_stores (reg : Mem) :
    _setupTestSNES.registers reg = stores Registers.ctype
      [(Registers.at "bgMode" "mode", 1),
        (Registers.at "bgMode" "m1bg3pri", 1),
        (Registers.bgSizeAndTileBase 0 "baseAddr", 0),
        (Registers.bgSizeAndTileBase 0 "sizeX", 0),
        (Registers.bgSizeAndTileBase 0 "sizeY", 0),
        (Registers.bgSizeAndTileBase 1 "baseAddr", 4),
        (Registers.bgSizeAndTileBase 1 "sizeX", 0),
        (Registers.bgSizeAndTileBase 1 "sizeY", 0),
        (Registers.bgSizeAndTileBase 2 "baseAddr", 31),
        (Registers.bgSizeAndTileBase 2 "sizeX", 0),
        (Registers.bgSizeAndTileBase 2 "sizeY", 0),
        (Registers.at "objSizeAndBase" "baseAddr", 1),
        (Registers.at "objSizeAndBase" "baseGap", 0),
        (Registers.at "objSizeAndBase" "objSize", OBJSIZE_32x32_64x64),
        (Registers.at "bgCharBase" "bg1", 4),
        (Registers.at "bgCharBase" "bg2", 4),
        (Registers.at "bgCharBase" "bg3", 4),
        (Registers.at "colorMathControl" "enableBGOBJ", 1),
        (Registers.at "colorMathControl" "bg1", 1),
        (Registers.at "mainScreenDesignation" "bg1", 1),
        (Registers.at "mainScreenDesignation" "bg3", 1),
        (Registers.at "mainScreenDesignation" "obj", 0),
        (Registers.at "subScreenDesignation" "obj", 1),
        (Registers.at "mosaic" "enableBG1", 1)] reg := rfl

/-- The base registers after `_setupTestSNES`, whatever the registers held before. -/
theorem setupRegisters_bases (reg : Mem) :
    load Registers.ctype (Registers.bgSizeAndTileBase 0 "baseAddr")
      (_setupTestSNES.registers reg) = 0 ∧
    load Registers.ctype (Registers.bgSizeAndTileBase 1 "baseAddr")
      (_setupTestSNES.registers reg) = 4 ∧
    load Registers.ctype (Registers.bgSizeAndTileBase 2 "baseAddr")
      (_setupTestSNES.registers reg) = 31 ∧
    load Registers.ctype (Registers.at "objSizeAndBase" "baseAddr")
      (_setupTestSNES.registers reg) = 1 ∧
    load Registers.ctype (Registers.at "bgCharBase" "bg1")
      (_setupTestSNES.registers reg) = 4 ∧
    load Registers.ctype (Registers.at "bgCharBase" "bg2")
      (_setupTestSNES.registers reg) = 4 ∧
    load Registers.ctype (Registers.at "bgCharBase" "bg3")
      (_setupTestSNES.registers reg) = 4 := by
  rw [setupRegisters_eq_stores]
  exact ⟨load_stores_assigned _ _ _ _ _ 2 3 1 2 6 rfl (by decide) (by decide),
    load_stores_assigned _ _ _ _ _ 5 4 1 2 6 rfl (by decide) (by decide),
    load_stores_assigned _ _ _ _ _ 8 5 1 2 6 rfl (by decide) (by decide),
    load_stores_assigned _ _ _ _ _ 11 0 1 0 3 rfl (by decide) (by decide),
    load_stores_assigned _ _ _ _ _ 14 7 1 0 4 rfl (by decide) (by decide),
    load_stores_assigned _ _ _ _ _ 15 7 1 4 4 rfl (by decide) (by decide),
    load_stores_assigned _ _ _ _ _ 16 8 1 0 4 rfl (by decide) (by decide)⟩

/-- C12: whatever the registers held before, after the register assignments of
`_setupTestSNES` the tilemap bases of BG1, BG2 and BG3 are 0, 4 and 31 and
`baseAddr << 11` is the byte offset in VRAM of `mode1.bg1TMaps`, `mode1.bg2TMaps` and
`mode1.bg3TMap`; the OBJ base is 1 and `1 << 14` is the offset of `mode1.objCMaps`; the
character bases of BG1, BG2 and BG3 are 4 and `4 << 13 = 0x8000` is the offset of
`mode1.bgCMap`. -/
theorem setupTestSNES_bases (reg : Mem) :
    load Registers.ctype (Registers.bgSizeAndTileBase 0 "baseAddr")
      (_setupTestSNES.registers reg) = 0 ∧
    load Registers.ctype (Registers.bgSizeAndTileBase 1 "baseAddr")
      (_setupTestSNES.registers reg) = 4 ∧
    load Registers.ctype (Registers.bgSizeAndTileBase 2 "baseAddr")
      (_setupTestSNES.registers reg) = 31 ∧
    load Registers.ctype (Registers.at "objSizeAndBase" "baseAddr")
      (_setupTestSNES.registers reg) = 1 ∧
    load Registers.ctype (Registers.at "bgCharBase" "bg1")
      (_setupTestSNES.registers reg) = 4 ∧
    load Registers.ctype (Registers.at "bgCharBase" "bg2")
      (_setupTestSNES.registers reg) = 4 ∧
    load Registers.ctype (Registers.at "bgCharBase" "bg3")
      (_setupTestSNES.registers reg) = 4 ∧
    some (bgTileMapAddr (load Registers.ctype (Registers.bgSizeAndTileBase 0 "baseAddr")
      (_setupTestSNES.registers reg))) =
      offsetOf VRAM.ctype [.field "", .field "mode1", .field "bg1TMaps"] ∧
    some (bgTileMapAddr (load Registers.ctype (Registers.bgSizeAndTileBase 1 "baseAddr")
      (_setupTestSNES.registers reg))) =
      offsetOf VRAM.ctype [.field "", .field "mode1", .field "bg2TMaps"] ∧
    some (bgTileMapAddr (load Registers.ctype (Registers.bgSizeAndTileBase 2 "baseAddr")
      (_setupTestSNES.registers reg))) =
      offsetOf VRAM.ctype [.field "", .field "mode1", .field "bg3TMap"] ∧
    some (objTable0Addr (load Registers.ctype (Registers.at "objSizeAndBase" "baseAddr")
      (_setupTestSNES.registers reg))) =
      offsetOf VRAM.ctype [.field "", .field "mode1", .field "objCMaps"] ∧
    some (bgCharAddr (load Registers.ctype (Registers.at "bgCharBase" "bg1")
      (_setupTestSNES.registers reg))) =
      offsetOf VRAM.ctype [.field "", .field "mode1", .field "bgCMap"] ∧
    some (bgCharAddr (load Registers.ctype (Registers.at "bgCharBase" "bg2")
      (_setupTestSNES.registers reg))) =
      offsetOf VRAM.ctype [.field "", .field "mode1", .field "bgCMap"] ∧
    some (bgCharAddr (load Registers.ctype (Registers.at "bgCharBase" "bg3")
      (_setupTestSNES.registers reg))) =
      offsetOf VRAM.ctype [.field "", .field "mode1", .field "bgCMap"] ∧
    bgCharAddr 4 = 0x8000 := by
  obtain ⟨h0, h1, h2, h3, h4, h5, h6⟩ := setupRegisters_bases reg
  rw [h0, h1, h2, h3, h4, h5, h6]
  decide

/-- C13: the three `cMapCreate` calls of `_setupTestSNES`, (2,2,32), (4,4,60) and
(4,0,4), own the byte regions [17408, 33792), [34816, 65536) and [32768, 34816) of the
character tables (rows of 512 bytes from `baseAddr << 13`); each region ends at or before
65536, the size of VRAM. -/
theorem setupTestSNES_cMap_in_bounds :
    cMapRowBytes = 512 ∧ VRAM.ctype.sizeof = 65536 ∧
    _setupTestSNES.cMapCreateCalls.map (fun c => cMapRegion c.1 c.2.1 c.2.2) =
      [(17408, 33792), (34816, 65536), (32768, 34816)] ∧
    _setupTestSNES.cMapCreateCalls.all
      (fun c => decide ((cMapRegion c.1 c.2.1 c.2.2).1 ≤ (cMapRegion c.1 c.2.1 c.2.2).2 ∧
        (cMapRegion c.1 c.2.1 c.2.2).2 ≤ VRAM.ctype.sizeof)) = true := by
  decide

/-! ## Direct colour view of a tile -/

/-- The lvalue `tile.dcm.<f>` for a member of the anonymous union of byte 0. -/
theorem Tile.dcm_storage :
    storageOf Tile.ctype [.field "", .field "dcm", .field "", .field "colorRaw"] =
      some (0, 1, 0, 8) ∧
    storageOf Tile.ctype [.field "", .field "dcm", .field "", .field "RRR"] =
      some (0, 1, 0, 3) ∧
    storageOf Tile.ctype [.field "", .field "dcm", .field "", .field "GGG"] =
      some (0, 1, 0, 3) ∧
    storageOf Tile.ctype [.field "", .field "dcm", .field "", .field "BB"] =
      some (0, 1, 0, 2) := by
  decide

/-- C16, what the code does: `RRR`, `GGG` and `BB` are declared as members of the union
that holds `colorRaw`, so each of them starts at bit 0 of byte 0: `RRR` and `GGG` both
read bits 0-2 and `BB` reads bits 0-1.  For `colorRaw = 0x38` (binary 00111000) the code
reads `GGG = 0` where the layout `BBGGGRRR` has `GGG = 7`, and
`RRR | GGG << 3 | BB << 6` is 0, not `colorRaw`. -/
theorem tile_dcm_fields_overlap (m : Mem) :
    load Tile.ctype [.field "", .field "dcm", .field "", .field "colorRaw"] m = m 0 % 256 ∧
    load Tile.ctype [.field "", .field "dcm", .field "", .field "RRR"] m = m 0 % 8 ∧
    load Tile.ctype [.field "", .field "dcm", .field "", .field "GGG"] m = m 0 % 8 ∧
    load Tile.ctype [.field "", .field "dcm", .field "", .field "BB"] m = m 0 % 4 ∧
    load Tile.ctype [.field "", .field "dcm", .field "", .field "colorRaw"]
      (fun a => if a = 0 then 0x38 else 0) = 0x38 ∧
    load Tile.ctype [.field "", .field "dcm", .field "", .field "GGG"]
      (fun a => if a = 0 then 0x38 else 0) = 0 ∧
    (load Tile.ctype [.field "", .field "dcm", .field "", .field "RRR"]
        (fun a => if a = 0 then 0x38 else 0) |||
      (load Tile.ctype [.field "", .field "dcm", .field "", .field "GGG"]
        (fun a => if a = 0 then 0x38 else 0) <<< 3) |||
      (load Tile.ctype [.field "", .field "dcm", .field "", .field "BB"]
        (fun a => if a = 0 then 0x38 else 0) <<< 6)) = 0 := by
  obtain ⟨h0, h1, h2, h3⟩ := Tile.dcm_storage
  refine ⟨?_, ?_, ?_, ?_, by decide, by decide, by decide⟩
  · rw [load, h0]
    simp only [getBits, loadUnit, Nat.shiftRight_zero]
    omega
  · rw [load, h1]
    simp only [getBits, loadUnit, Nat.shiftRight_zero]
    omega
  · rw [load, h2]
    simp only [getBits, loadUnit, Nat.shiftRight_zero]
    omega
  · rw [load, h3]
    simp only [getBits, loadUnit, Nat.shiftRight_zero]
    omega

/-! ## OBJ character tables -/

/-- C18, what the code does: in the Mode 7 view the 128x128 tile plane is 16384 bytes
at offset 0 and the 256 characters of 64 bytes are 16384 bytes at offset 16384, half of
VRAM together; the trailing member is `raw[0x7FF]`, 2047 bytes at offset 32768, so the
`mode7` struct is 34815 bytes, not 65536: its last byte is VRAM byte 0x87FE, and neither
`mode7.raw[0x7FF]` nor `mode7.raw[0x7FFF]` exists. -/
theorem vram_mode7_layout :
    offsetOf VRAM.mode7CType [.field "", .field "BG1", .field "tiles"] = some 0 ∧
    sizeAt VRAM.mode7CType [.field "", .field "BG1", .field "tiles"] = some 16384 ∧
    offsetOf VRAM.mode7CType [.field "", .field "BG1", .field "characters"] = some 16384 ∧
    sizeAt VRAM.mode7CType [.field "", .field "BG1", .field "characters", .index 0] =
      some 64 ∧
    sizeAt VRAM.mode7CType [.field "", .field "BG1", .field "characters"] = some 16384 ∧
    sizeAt VRAM.mode7CType [.field "", .field "BG2"] = some 32768 ∧
    offsetOf VRAM.mode7CType [.field "raw"] = some 32768 ∧
    sizeAt VRAM.mode7CType [.field "raw"] = some 2047 ∧
    VRAM.mode7CType.sizeof = 34815 ∧
    VRAM.mode7CType.sizeof ≠ VRAM.ctype.sizeof ∧
    offsetOf VRAM.ctype [.field "", .field "mode7", .field "raw", .index 0x7FE] =
      some 0x87FE ∧
    offsetOf VRAM.ctype [.field "", .field "mode7", .field "raw", .index 0x7FF] = none ∧
    offsetOf VRAM.ctype [.field "", .field "mode7", .field "raw", .index 0x7FFF] = none ∧
    VRAM.ctype.sizeof = 65536 := by
  decide

/-! ## Character maps of the test setup -/

/-- C19, what the code does: the second `cMapCreate` call of `_setupTestSNES`,
(4, 4, 60), owns bytes [0x8800, 0x10000); `mode1.bgCMap.color16s` is [0x8800, 0xF800),
56 rows, and `mode1.bg3TMap` is [0xF800, 0x10000), so the last 4 of the 60 rows are the
BG3 tilemap.  With 56 rows the region would be `color16s` exactly. -/
theorem setupTestSNES_bgCMap_overlaps_bg3TMap :
    _setupTestSNES.cMapCreateCalls.get? 1 = some (4, 4, 60) ∧
    cMapRegion 4 4 60 = (0x8800, 0x10000) ∧
    offsetOf VRAM.ctype [.field "", .field "mode1", .field "bgCMap", .field "color16s"] =
      some 0x8800 ∧
    sizeAt VRAM.ctype [.field "", .field "mode1", .field "bgCMap", .field "color16s"] =
      some (56 * cMapRowBytes) ∧
    offsetOf VRAM.ctype [.field "", .field "mode1", .field "bg3TMap"] = some 0xF800 ∧
    sizeAt VRAM.ctype [.field "", .field "mode1", .field "bg3TMap"] = some (4 * cMapRowBytes) ∧
    (cMapRegion 4 4 60).1 ≤ 0xF800 ∧ 0xF800 < (cMapRegion 4 4 60).2 ∧
    (cMapRegion 4 4 60).2 = 0xF800 + 4 * cMapRowBytes ∧
    cMapRegion 4 4 56 = (0x8800, 0xF800) := by
  decide

/-! ## Database connection -/

/-- C20: `dbConnect` on a handle that is open makes no SQLite call and leaves `conn`,
`open` and `dbPath` as they are; when `filename` is the stored `dbPath` it returns
`DB_SUCCESS`, otherwise it returns `DB_FAILURE` and the error text is
"Database already open.". -/
theorem dbConnect_already_open (sql : Sqlite) (self : DBBase) (filename : String)
    (create : Bool) (hopen : self.isOpen = true) :
    (dbConnect sql self filename create).2.2 = [] ∧
    (dbConnect sql self filename create).2.1.conn = self.conn ∧
    (dbConnect sql self filename create).2.1.isOpen = self.isOpen ∧
    (dbConnect sql self filename create).2.1.dbPath = self.dbPath ∧
    (self.dbPath = some filename →
      (dbConnect sql self filename create).1 = .DB_SUCCESS ∧
      (dbConnect sql self filename create).2.1.err = some "") ∧
    (self.dbPath ≠ some filename →
      (dbConnect sql self filename create).1 = .DB_FAILURE ∧
      (dbConnect sql self filename create).2.1.err = some "Database already open.") := by
  obtain ⟨conn, isOpen, dbPath, err⟩ := self
  simp only at hopen
  subst hopen
  by_cases hp : dbPath = some filename
  · subst hp
    simp [dbConnect, stringEqualRaw]
  · have he : (dbPath == some filename) = false := by simpa using hp
    simp [dbConnect, stringEqualRaw, he, hp]

/-- Witness of C20: a handle open on "snesquest.db", reconnected to the same file and
to "other.db". -/
theorem dbConnect_already_open_witness :
    (dbConnect ⟨fun _ _ => (0, some 9), fun _ => "x"⟩
      ⟨some 7, true, some "snesquest.db", none⟩ "snesquest.db" false).1 = .DB_SUCCESS ∧
    ((dbConnect ⟨fun _ _ => (0, some 9), fun _ => "x"⟩
      ⟨some 7, true, some "snesquest.db", none⟩ "other.db" true).1 = .DB_FAILURE ∧
    (dbConnect ⟨fun _ _ => (0, some 9), fun _ => "x"⟩
      ⟨some 7, true, some "snesquest.db", none⟩ "other.db" true).2.1.err =
        some "Database already open.") :=
  ⟨((dbConnect_already_open ⟨fun _ _ => (0, some 9), fun _ => "x"⟩
      ⟨some 7, true, some "snesquest.db", none⟩ "snesquest.db" false rfl).2.2.2.2.1 rfl).1,
    (dbConnect_already_open ⟨fun _ _ => (0, some 9), fun _ => "x"⟩
      ⟨some 7, true, some "snesquest.db", none⟩ "other.db" true rfl).2.2.2.2.2 (by decide)⟩

/-! ## Frame update, sprites -/

/-- Bits 0-8 of a value do not change when 512 is subtracted. -/
theorem toUnsigned_sub_512 (v : Int) :
    toUnsigned 9 (v - 512) = toUnsigned 9 v ∧ toUnsigned 8 (v - 512) = toUnsigned 8 v := by
  simp only [toUnsigned]
  constructor
  · congr 1; omega
  · congr 1; omega

/-- An unsigned conversion is below `2 ^ bits`. -/
theorem toUnsigned_lt (bits : Nat) (v : Int) : toUnsigned bits v < 2 ^ bits := by
  have hpos : (0 : Int) < 2 ^ bits := by positivity
  have h1 := Int.emod_lt_of_pos v hpos
  have h0 := Int.emod_nonneg v (ne_of_gt hpos)
  simp only [toUnsigned]
  have : ((v % 2 ^ bits).toNat : Int) < ((2 ^ bits : Nat) : Int) := by
    rw [Int.toNat_of_nonneg h0]; push_cast; exact h1
  exact_mod_cast this

/-- The `sign` and `value` members of `testX` after the adjustment of Game.c 215-217 are
bit 8 and bits 0-7 of the position. -/
theorem testX_sign_value (v : Int) :
    (if v ≥ 256 then TwosComplement9.mk (v - 512) else ⟨v⟩).sign = toUnsigned 9 v / 256 ∧
    (if v ≥ 256 then TwosComplement9.mk (v - 512) else ⟨v⟩).value = toUnsigned 8 v := by
  by_cases h : v ≥ 256
  · simp only [h, if_true, TwosComplement9.sign, TwosComplement9.value,
      (toUnsigned_sub_512 v).1, (toUnsigned_sub_512 v).2, and_self]
  · simp only [h, if_false, TwosComplement9.sign, TwosComplement9.value, and_self]

/-- The body of the sprite loop as a sequence of assignments. -/
theorem sprite_eq_stores (data : AppData) (oam : Mem) (x y : Nat) (hx : x < 2) (hy : y < 2) :
    gameUpdate.sprite data oam x y =
      stores OAM.ctype (gameUpdate.spriteStores data x y) oam := by
  have h1 := fun v => (testX_sign_value v).1
  have h2 := fun v => (testX_sign_value v).2
  interval_cases x <;> interval_cases y <;>
    simp [gameUpdate.sprite, gameUpdate.spriteStores, stores, OAM.x9, OAM.sz, h1, h2]

/-- The sprite loops as a sequence of assignments. -/
theorem sprites_eq_stores (data : AppData) (oam : Mem) :
    gameUpdate.sprites data oam = stores OAM.ctype (gameUpdate.oamStores data) oam := by
  have e : List.range 2 = [0, 1] := by decide
  simp only [gameUpdate.sprites, e, List.foldl_cons, List.foldl_nil, gameUpdate.oamStores,
    stores_append]
  rw [sprite_eq_stores data _ 0 0 (by decide) (by decide),
    sprite_eq_stores data _ 1 0 (by decide) (by decide),
    sprite_eq_stores data _ 0 1 (by decide) (by decide),
    sprite_eq_stores data _ 1 1 (by decide) (by decide)]

/-- The palette loop does not write OAM. -/
theorem fade_oam (counter : Int) (snes : SNES) (c : Nat) :
    (gameUpdate.fade counter snes c).oam = snes.oam := by
  unfold gameUpdate.fade
  simp only
  split <;> rfl

/-- OAM after `gameUpdate` is OAM after the assignments of the sprite loops. -/
theorem gameUpdate_oam (data : AppData) (g : GameState) :
    (gameUpdate data g).snes.oam =
      stores OAM.ctype (gameUpdate.oamStores data) g.snes.oam := by
  have hf : ∀ (l : List Nat) (s : SNES),
      (l.foldl (gameUpdate.fade g.counter) s).oam = s.oam := by
    intro l
    induction l with
    | nil => intro s; rfl
    | cons c t ih => intro s; rw [List.foldl_cons, ih, fade_oam]
  simp only [gameUpdate, hf, sprites_eq_stores]

/-- What `gameUpdate` leaves in the slot and in `primary.x` of the sprite `y * 2 + x`. -/
theorem gameUpdate_oam_written (data : AppData) (g : GameState) (x y : Nat) (hx : x < 2)
    (hy : y < 2) :
    load OAM.ctype (OAM.x9 (y * 2 + x)) (gameUpdate data g).snes.oam =
      toUnsigned 9 (data.testX + x * 64) / 256 ∧
    load OAM.ctype (OAM.sz (y * 2 + x)) (gameUpdate data g).snes.oam = 1 ∧
    load OAM.ctype (OAM.primary (y * 2 + x) "x") (gameUpdate data g).snes.oam =
      toUnsigned 8 (data.testX + x * 64) := by
  have hp : (gameUpdate.oamStores data).map Prod.fst = gameUpdate.oamPaths := rfl
  have h9 : ∀ v : Int, toUnsigned 9 v / 256 < 2 := fun v => by
    have := toUnsigned_lt 9 v
    norm_num at this
    omega
  have h8 : ∀ v : Int, toUnsigned 8 v < 256 := fun v => by
    have := toUnsigned_lt 8 v
    norm_num at this
    exact this
  rw [gameUpdate_oam]
  interval_cases x <;> interval_cases y
  · refine ⟨?_, ?_, ?_⟩
    · rw [load_stores_assigned _ _ _ _ _ 0 512 1 0 1 hp (by decide) (by decide)]
      simp [gameUpdate.oamStores, gameUpdate.spriteStores, h9]
    · rw [load_stores_assigned _ _ _ _ _ 1 512 1 1 1 hp (by decide) (by decide)]
      simp [gameUpdate.oamStores, gameUpdate.spriteStores]
    · rw [load_stores_assigned _ _ _ _ _ 2 0 1 0 8 hp (by decide) (by decide)]
      simp [gameUpdate.oamStores, gameUpdate.spriteStores, h8]
  · refine ⟨?_, ?_, ?_⟩
    · rw [load_stores_assigned _ _ _ _ _ 13 512 1 4 1 hp (by decide) (by decide)]
      simp [gameUpdate.oamStores, gameUpdate.spriteStores, h9]
    · rw [load_stores_assigned _ _ _ _ _ 14 512 1 5 1 hp (by decide) (by decide)]
      simp [gameUpdate.oamStores, gameUpdate.spriteStores]
    · rw [load_stores_assigned _ _ _ _ _ 15 8 1 0 8 hp (by decide) (by decide)]
      simp [gameUpdate.oamStores, gameUpdate.spriteStores, h8]
  · refine ⟨?_, ?_, ?_⟩
    · rw [load_stores_assigned _ _ _ _ _ 6 512 1 2 1 hp (by decide) (by decide)]
      simp [gameUpdate.oamStores, gameUpdate.spriteStores, h9]
    · rw [load_stores_assigned _ _ _ _ _ 7 512 1 3 1 hp (by decide) (by decide)]
      simp [gameUpdate.oamStores, gameUpdate.spriteStores]
    · rw [load_stores_assigned _ _ _ _ _ 8 4 1 0 8 hp (by decide) (by decide)]
      simp [gameUpdate.oamStores, gameUpdate.spriteStores, h8]
  · refine ⟨?_, ?_, ?_⟩
    · rw [load_stores_assigned _ _ _ _ _ 20 512 1 6 1 hp (by decide) (by decide)]
      simp [gameUpdate.oamStores, gameUpdate.spriteStores, h9]
    · rw [load_stores_assigned _ _ _ _ _ 21 512 1 7 1 hp (by decide) (by decide)]
      simp [gameUpdate.oamStores, gameUpdate.spriteStores]
    · rw [load_stores_assigned _ _ _ _ _ 22 12 1 0 8 hp (by decide) (by decide)]
      simp [gameUpdate.oamStores, gameUpdate.spriteStores, h8]

/-- The bytes of OAM that `gameUpdate` leaves: all but the 16 bytes of the sprites 0..3
and the first secondary byte. -/
theorem gameUpdate_oam_frame (data : AppData) (g : GameState) (a : Nat) (ha : 16 ≤ a)
    (ha' : a ≠ 512) : (gameUpdate data g).snes.oam a = g.snes.oam a := by
  rw [gameUpdate_oam]
  refine stores_outside OAM.ctype _ gameUpdate.oamPaths [(0, 16), (512, 513)] _ a rfl
    (by decide) ?_
  intro r hr
  simp only [List.mem_cons, List.mem_singleton, List.not_mem_nil, or_false] at hr
  rcases hr with rfl | rfl <;> simp only <;> omega

/-- A read depends on the bytes of the unit of its lvalue only. -/
theorem load_congr (t : CType) (q : List Step) (m m' : Mem) (o u s w : Nat)
    (hq : storageOf t q = some (o, u, s, w)) (h : ∀ a, o ≤ a → a < o + u → m a = m' a) :
    load t q m = load t q m' := by
  rw [load, load, hq]
  simp only
  rw [loadUnit_congr u m m' o h]

set_option maxRecDepth 20000 in
/-- Storage of the members of sprite `n` and of its two secondary bits. -/
theorem OAM.sprite_storage (n : Nat) (hn : n < 128) :
    storageOf OAM.ctype (OAM.primary n "x") = some (4 * n, 1, 0, 8) ∧
    storageOf OAM.ctype (OAM.primary n "y") = some (4 * n + 1, 1, 0, 8) ∧
    storageOf OAM.ctype (OAM.primary n "character") = some (4 * n + 2, 1, 0, 8) ∧
    storageOf OAM.ctype (OAM.primary n "nameTable") = some (4 * n + 3, 1, 0, 1) ∧
    storageOf OAM.ctype (OAM.primary n "palette") = some (4 * n + 3, 1, 1, 3) ∧
    storageOf OAM.ctype (OAM.primary n "priority") = some (4 * n + 3, 1, 4, 2) ∧
    storageOf OAM.ctype (OAM.primary n "flipX") = some (4 * n + 3, 1, 6, 1) ∧
    storageOf OAM.ctype (OAM.primary n "flipY") = some (4 * n + 3, 1, 7, 1) ∧
    storageOf OAM.ctype (OAM.x9 n) = some (512 + n / 4, 1, 2 * (n % 4), 1) ∧
    storageOf OAM.ctype (OAM.sz n) = some (512 + n / 4, 1, 2 * (n % 4) + 1, 1) := by
  have key1 : ∀ d : Fin 128,
      storageOf OAM.ctype (OAM.primary d.val "x") = some (4 * d.val, 1, 0, 8) ∧
      storageOf OAM.ctype (OAM.primary d.val "y") = some (4 * d.val + 1, 1, 0, 8) ∧
      storageOf OAM.ctype (OAM.primary d.val "character") = some (4 * d.val + 2, 1, 0, 8) ∧
      storageOf OAM.ctype (OAM.primary d.val "nameTable") = some (4 * d.val + 3, 1, 0, 1) ∧
      storageOf OAM.ctype (OAM.primary d.val "palette") = some (4 * d.val + 3, 1, 1, 3) := by
    decide
  have key2 : ∀ d : Fin 128,
      storageOf OAM.ctype (OAM.primary d.val "priority") = some (4 * d.val + 3, 1, 4, 2) ∧
      storageOf OAM.ctype (OAM.primary d.val "flipX") = some (4 * d.val + 3, 1, 6, 1) ∧
      storageOf OAM.ctype (OAM.primary d.val "flipY") = some (4 * d.val + 3, 1, 7, 1) ∧
      storageOf OAM.ctype (OAM.x9 d.val) = some (512 + d.val / 4, 1, 2 * (d.val % 4), 1) ∧
      storageOf OAM.ctype (OAM.sz d.val) =
        some (512 + d.val / 4, 1, 2 * (d.val % 4) + 1, 1) := by
    decide
  obtain ⟨a0, a1, a2, a3, a4⟩ := key1 ⟨n, hn⟩
  obtain ⟨a5, a6, a7, a8, a9⟩ := key2 ⟨n, hn⟩
  exact ⟨a0, a1, a2, a3, a4, a5, a6, a7, a8, a9⟩

/-- C14: in `gameUpdate`, for the sprite `idx = y * 2 + x` of each `x, y` in {0, 1}, the
`x9` and `sz` bits written are those of sprite `idx`: bit `2 * (idx % 4)` and bit
`2 * (idx % 4) + 1` of secondary byte `idx / 4`; afterwards `x9` holds bit 8 of
`testX + 64 x` and `sz` holds 1.  Every byte of OAM outside the 16 bytes of the sprites
0..3 and the first secondary byte is as before, so for every other sprite `n` the `x9`
and `sz` bits and all members of `primary[n]` read as before. -/
theorem gameUpdate_oam_slots (data : AppData) (g : GameState) (x y n a : Nat) (hx : x < 2)
    (hy : y < 2) (hn : 4 ≤ n) (hn' : n < 128) (ha : 16 ≤ a) (ha' : a ≠ 512) :
    storageOf OAM.ctype (OAM.x9 (y * 2 + x)) =
      some (512 + (y * 2 + x) / 4, 1, 2 * ((y * 2 + x) % 4), 1) ∧
    storageOf OAM.ctype (OAM.sz (y * 2 + x)) =
      some (512 + (y * 2 + x) / 4, 1, 2 * ((y * 2 + x) % 4) + 1, 1) ∧
    load OAM.ctype (OAM.x9 (y * 2 + x)) (gameUpdate data g).snes.oam =
      toUnsigned 9 (data.testX + x * 64) / 256 ∧
    load OAM.ctype (OAM.sz (y * 2 + x)) (gameUpdate data g).snes.oam = 1 ∧
    (gameUpdate data g).snes.oam a = g.snes.oam a ∧
    load OAM.ctype (OAM.x9 n) (gameUpdate data g).snes.oam =
      load OAM.ctype (OAM.x9 n) g.snes.oam ∧
    load OAM.ctype (OAM.sz n) (gameUpdate data g).snes.oam =
      load OAM.ctype (OAM.sz n) g.snes.oam ∧
    load OAM.ctype (OAM.primary n "x") (gameUpdate data g).snes.oam =
      load OAM.ctype (OAM.primary n "x") g.snes.oam ∧
    load OAM.ctype (OAM.primary n "y") (gameUpdate data g).snes.oam =
      load OAM.ctype (OAM.primary n "y") g.snes.oam ∧
    load OAM.ctype (OAM.primary n "character") (gameUpdate data g).snes.oam =
      load OAM.ctype (OAM.primary n "character") g.snes.oam ∧
    load OAM.ctype (OAM.primary n "nameTable") (gameUpdate data g).snes.oam =
      load OAM.ctype (OAM.primary n "nameTable") g.snes.oam ∧
    load OAM.ctype (OAM.primary n "palette") (gameUpdate data g).snes.oam =
      load OAM.ctype (OAM.primary n "palette") g.snes.oam ∧
    load OAM.ctype (OAM.primary n "priority") (gameUpdate data g).snes.oam =
      load OAM.ctype (OAM.primary n "priority") g.snes.oam ∧
    load OAM.ctype (OAM.primary n "flipX") (gameUpdate data g).snes.oam =
      load OAM.ctype (OAM.primary n "flipX") g.snes.oam ∧
    load OAM.ctype (OAM.primary n "flipY") (gameUpdate data g).snes.oam =
      load OAM.ctype (OAM.primary n "flipY") g.snes.oam := by
  have hidx : y * 2 + x < 128 := by omega
  obtain ⟨-, -, -, -, -, -, -, -, i9, iz⟩ := OAM.sprite_storage (y * 2 + x) hidx
  obtain ⟨w9, wz, -⟩ := gameUpdate_oam_written data g x y hx hy
  obtain ⟨s0, s1, s2, s3, s4, s5, s6, s7, s8, s9⟩ := OAM.sprite_storage n hn'
  have fr : ∀ b, 16 ≤ b → b ≠ 512 → (gameUpdate data g).snes.oam b = g.snes.oam b :=
    fun b h1 h2 => gameUpdate_oam_frame data g b h1 h2
  refine ⟨i9, iz, w9, wz, fr a ha ha', ?_, ?_, ?_, ?_, ?_, ?_, ?_, ?_, ?_, ?_⟩
  · exact load_congr _ _ _ _ _ _ _ _ s8 (fun b h1 h2 => fr b (by omega) (by omega))
  · exact load_congr _ _ _ _ _ _ _ _ s9 (fun b h1 h2 => fr b (by omega) (by omega))
  · exact load_congr _ _ _ _ _ _ _ _ s0 (fun b h1 h2 => fr b (by omega) (by omega))
  · exact load_congr _ _ _ _ _ _ _ _ s1 (fun b h1 h2 => fr b (by omega) (by omega))
  · exact load_congr _ _ _ _ _ _ _ _ s2 (fun b h1 h2 => fr b (by omega) (by omega))
  · exact load_congr _ _ _ _ _ _ _ _ s3 (fun b h1 h2 => fr b (by omega) (by omega))
  · exact load_congr _ _ _ _ _ _ _ _ s4 (fun b h1 h2 => fr b (by omega) (by omega))
  · exact load_congr _ _ _ _ _ _ _ _ s5 (fun b h1 h2 => fr b (by omega) (by omega))
  · exact load_congr _ _ _ _ _ _ _ _ s6 (fun b h1 h2 => fr b (by omega) (by omega))
  · exact load_congr _ _ _ _ _ _ _ _ s7 (fun b h1 h2 => fr b (by omega) (by omega))

/-- Witness of C14: the setup values `testX = 28`, `testY = 58`, sprite 3 written
(`x = 1`, `y = 1`), sprite 5 and OAM byte 20 left. -/
theorem gameUpdate_oam_slots_witness :
    load OAM.ctype (OAM.sz (1 * 2 + 1))
      (gameUpdate ⟨28, 58, 0, 0, 0⟩
        ⟨⟨fun _ => 0, fun _ => 0, fun _ => 7, fun _ => 0⟩, 0, 0⟩).snes.oam = 1 ∧
    (gameUpdate ⟨28, 58, 0, 0, 0⟩
      ⟨⟨fun _ => 0, fun _ => 0, fun _ => 7, fun _ => 0⟩, 0, 0⟩).snes.oam 20 = 7 ∧
    load OAM.ctype (OAM.x9 5)
      (gameUpdate ⟨28, 58, 0, 0, 0⟩
        ⟨⟨fun _ => 0, fun _ => 0, fun _ => 7, fun _ => 0⟩, 0, 0⟩).snes.oam =
      load OAM.ctype (OAM.x9 5) (fun _ => 7) :=
  have h := gameUpdate_oam_slots ⟨28, 58, 0, 0, 0⟩
    ⟨⟨fun _ => 0, fun _ => 0, fun _ => 7, fun _ => 0⟩, 0, 0⟩ 1 1 5 20 (by decide) (by decide)
    (by decide) (by decide) (by decide) (by decide)
  ⟨h.2.2.2.1, h.2.2.2.2.1, h.2.2.2.2.2.1⟩

/-- C15: for a sprite position `v = testX + 64 x` with `0 ≤ v < 512` (`x, y` in {0, 1}),
`gameUpdate` leaves `primary[y * 2 + x].x = v mod 256` and the sprite's `x9` bit 1
exactly when `v ≥ 256`; resolving X from `(x9 << 8) | primary.x` as 9-bit signed then
gives `v` when `v < 256` and `v - 512` otherwise. -/
theorem gameUpdate_sprite_x (data : AppData) (g : GameState) (x y : Nat) (hx : x < 2)
    (hy : y < 2) (h0 : 0 ≤ data.testX + 64 * x) (h1 : data.testX + 64 * x < 512) :
    (load OAM.ctype (OAM.primary (y * 2 + x) "x") (gameUpdate data g).snes.oam : Int) =
      (data.testX + 64 * x) % 256 ∧
    load OAM.ctype (OAM.x9 (y * 2 + x)) (gameUpdate data g).snes.oam =
      (if data.testX + 64 * x ≥ 256 then 1 else 0) ∧
    objResolveX (load OAM.ctype (OAM.x9 (y * 2 + x)) (gameUpdate data g).snes.oam)
        (load OAM.ctype (OAM.primary (y * 2 + x) "x") (gameUpdate data g).snes.oam) =
      (if data.testX + 64 * x < 256 then data.testX + 64 * x
        else data.testX + 64 * x - 512) := by
  obtain ⟨w9, -, wx⟩ := gameUpdate_oam_written data g x y hx hy
  have hc : data.testX + (x : Int) * 64 = data.testX + 64 * x := by ring
  rw [w9, wx, hc]
  generalize data.testX + 64 * (x : Int) = v at h0 h1
  obtain ⟨k, rfl⟩ := Int.eq_ofNat_of_zero_le h0
  have hk : k < 512 := by exact_mod_cast h1
  have e9 : toUnsigned 9 (k : Int) = k := by
    simp only [toUnsigned]
    have : ((k : Int) % 2 ^ 9) = ((k % 512 : Nat) : Int) := by norm_num
    rw [this, Int.toNat_ofNat, Nat.mod_eq_of_lt hk]
  have e8 : toUnsigned 8 (k : Int) = k % 256 := by
    simp only [toUnsigned]
    have : ((k : Int) % 2 ^ 8) = ((k % 256 : Nat) : Int) := by norm_num
    rw [this, Int.toNat_ofNat]
  rw [e9, e8]
  have hor : ((k / 256) <<< 8) ||| (k % 256) = k := by
    rw [Nat.or_comm, or_eq_add_of_dvd (k % 256) _ 8 (Nat.mod_lt _ (by decide))
      ⟨k / 256, by rw [Nat.shiftLeft_eq, Nat.mul_comm]⟩, Nat.shiftLeft_eq]
    omega
  refine ⟨by push_cast; rfl, ?_, ?_⟩
  · by_cases h : (k : Int) ≥ 256
    · have : 256 ≤ k := by exact_mod_cast h
      rw [if_pos h]; omega
    · have : k < 256 := by push_neg at h; exact_mod_cast h
      rw [if_neg h]; omega
  · simp only [objResolveX, hor]
    by_cases h : (k : Int) < 256
    · have h' : ¬ ((k : Int) ≥ 256) := by omega
      rw [if_neg h', if_pos h]
    · have h' : (k : Int) ≥ 256 := by omega
      rw [if_pos h', if_neg h]

/-- Witness of C15: `testX = 228`, `x = 1`: position 292, stored as `primary.x = 36`,
`x9 = 1`, resolved to -220. -/
theorem gameUpdate_sprite_x_witness :
    load OAM.ctype (OAM.x9 (0 * 2 + 1))
      (gameUpdate ⟨228, 58, 0, 0, 0⟩
        ⟨⟨fun _ => 0, fun _ => 0, fun _ => 0, fun _ => 0⟩, 0, 0⟩).snes.oam =
      (if (228 : Int) + 64 * (1 : Nat) ≥ 256 then 1 else 0) ∧
    objResolveX
      (load OAM.ctype (OAM.x9 (0 * 2 + 1))
        (gameUpdate ⟨228, 58, 0, 0, 0⟩
          ⟨⟨fun _ => 0, fun _ => 0, fun _ => 0, fun _ => 0⟩, 0, 0⟩).snes.oam)
      (load OAM.ctype (OAM.primary (0 * 2 + 1) "x")
        (gameUpdate ⟨228, 58, 0, 0, 0⟩
          ⟨⟨fun _ => 0, fun _ => 0, fun _ => 0, fun _ => 0⟩, 0, 0⟩).snes.oam) =
      (if (228 : Int) + 64 * (1 : Nat) < 256 then (228 : Int) + 64 * (1 : Nat)
        else (228 : Int) + 64 * (1 : Nat) - 512) :=
  have h := gameUpdate_sprite_x ⟨228, 58, 0, 0, 0⟩
    ⟨⟨fun _ => 0, fun _ => 0, fun _ => 0, fun _ => 0⟩, 0, 0⟩ 1 0 (by decide) (by decide)
    (by decide) (by decide)
  ⟨h.2.1, h.2.2⟩

/-! ## Character map regions of the test setup -/

/-- C21, what the code does: the three `cMapCreate` calls of `_setupTestSNES` own
[0x4400, 0x8400) (OBJ map), [0x8800, 0x10000) (BG map) and [0x8000, 0x8800) (BG3 text
map).  The OBJ map ends 2 rows after the end 0x8000 of `mode1.objCMaps` and shares
[0x8000, 0x8400) with the BG3 text map; the BG map shares no byte with either of the
other two. -/
theorem setupTestSNES_cMap_regions_overlap :
    _setupTestSNES.cMapCreateCalls = [(2, 2, 32), (4, 4, 60), (4, 0, 4)] ∧
    cMapRegion 2 2 32 = (0x4400, 0x8400) ∧
    cMapRegion 4 4 60 = (0x8800, 0x10000) ∧
    cMapRegion 4 0 4 = (0x8000, 0x8800) ∧
    offsetOf VRAM.ctype [.field "", .field "mode1", .field "objCMaps"] = some 0x4000 ∧
    sizeAt VRAM.ctype [.field "", .field "mode1", .field "objCMaps"] = some 0x4000 ∧
    0x4000 + 0x4000 < (cMapRegion 2 2 32).2 ∧
    (cMapRegion 2 2 32).2 = 0x8000 + 2 * cMapRowBytes ∧
    (cMapRegion 4 0 4).1 < (cMapRegion 2 2 32).2 ∧
    (cMapRegion 2 2 32).1 < (cMapRegion 4 0 4).2 ∧
    (cMapRegion 2 2 32).2 ≤ (cMapRegion 4 4 60).1 ∧
    (cMapRegion 4 0 4).2 ≤ (cMapRegion 4 4 60).1 ∧
    cMapRegion 2 2 30 = (0x4400, 0x8000) := by
  decide

/-! ## Frame update, OBJ designation -/

/-- The registers after one step of the palette loop. -/
theorem fade_reg (counter : Int) (snes : SNES) (c : Nat) :
    (gameUpdate.fade counter snes c).reg = stores Registers.ctype
      [(Registers.at "mainScreenDesignation" "obj",
          if Int.tmod counter 62 ≥ 31 then 1 else 0),
        (Registers.at "subScreenDesignation" "obj",
          if Int.tmod counter 62 ≥ 31 then 0 else 1)] snes.reg := by
  unfold gameUpdate.fade
  simp only
  split <;> rename_i h <;> simp [stores, h]

/-- The OBJ designation bits after `gameUpdate`. -/
theorem gameUpdate_designation (data : AppData) (g : GameState) :
    load Registers.ctype (Registers.at "mainScreenDesignation" "obj")
      (gameUpdate data g).snes.reg = (if Int.tmod g.counter 62 ≥ 31 then 1 else 0) ∧
    load Registers.ctype (Registers.at "subScreenDesignation" "obj")
      (gameUpdate data g).snes.reg = (if Int.tmod g.counter 62 ≥ 31 then 0 else 1) := by
  have e : List.range 16 = List.range 15 ++ [15] := List.range_succ 15
  have hm : ∀ (a b : Nat) (m : Mem),
      load Registers.ctype (Registers.at "mainScreenDesignation" "obj")
        (stores Registers.ctype
          [(Registers.at "mainScreenDesignation" "obj", a),
            (Registers.at "subScreenDesignation" "obj", b)] m) = a % 2 ^ 1 := fun a b m =>
    load_stores_assigned Registers.ctype _ _
      [Registers.at "mainScreenDesignation" "obj", Registers.at "subScreenDesignation" "obj"]
      m 0 49 1 4 1 rfl (by decide) (by decide)
  have hs : ∀ (a b : Nat) (m : Mem),
      load Registers.ctype (Registers.at "subScreenDesignation" "obj")
        (stores Registers.ctype
          [(Registers.at "mainScreenDesignation" "obj", a),
            (Registers.at "subScreenDesignation" "obj", b)] m) = b % 2 ^ 1 := fun a b m =>
    load_stores_assigned Registers.ctype _ _
      [Registers.at "mainScreenDesignation" "obj", Registers.at "subScreenDesignation" "obj"]
      m 1 50 1 4 1 rfl (by decide) (by decide)
  simp only [gameUpdate, e, List.foldl_append, List.foldl_cons, List.foldl_nil, fade_reg, hm,
    hs]
  constructor <;> split <;> rfl

/-- The counters after one `gameUpdate`. -/
theorem gameUpdate_counters (data : AppData) (g : GameState) :
    (gameUpdate data g).counter2 = wrapInt32 (g.counter2 + 1) ∧
    (gameUpdate data g).counter =
      (if Int.tmod (wrapInt32 (g.counter2 + 1)) 4 = 0 then wrapInt32 (g.counter + 1)
        else g.counter) :=
  ⟨rfl, rfl⟩

/-- The C test `x % 4 == 0` on a wrapped value sees the remainder of the value itself,
because 4 divides `2 ^ 32`. -/
theorem tmod_wrapInt32_four (i : Int) : Int.tmod (wrapInt32 i) 4 = 0 ↔ i % 4 = 0 := by
  rw [← Int.dvd_iff_tmod_eq_zero, Int.dvd_iff_emod_eq_zero]
  simp only [wrapInt32]
  omega

/-- Wrapping is not changed by wrapping a summand first. -/
theorem wrapInt32_add_one (i : Int) : wrapInt32 (wrapInt32 i + 1) = wrapInt32 (i + 1) := by
  simp only [wrapInt32]
  omega

/-- A value inside 32 bits is its own wrapping. -/
theorem wrapInt32_of_lt (i : Int) (h0 : 0 ≤ i) (h1 : i < 2147483648) : wrapInt32 i = i := by
  simp only [wrapInt32]
  omega

/-- The counters after `k` calls from counters 0: `counter2` is `k` and `counter` is
`k / 4`, both wrapped into 32 bits. -/
theorem gameUpdates_counters (data : Nat → AppData) (g : GameState) (k : Nat)
    (h1 : g.counter = 0) (h2 : g.counter2 = 0) :
    (gameUpdates data k g).counter2 = wrapInt32 (k : Int) ∧
    (gameUpdates data k g).counter = wrapInt32 ((k / 4 : Nat) : Int) := by
  induction k with
  | zero => exact ⟨by simp [gameUpdates, h2, wrapInt32], by simp [gameUpdates, h1, wrapInt32]⟩
  | succ n ih =>
    obtain ⟨i2, i1⟩ := ih
    rw [gameUpdates, (gameUpdate_counters _ _).1, (gameUpdate_counters _ _).2, i1, i2,
      wrapInt32_add_one]
    refine ⟨by push_cast; rfl, ?_⟩
    by_cases h : (n + 1) % 4 = 0
    · have ht : Int.tmod (wrapInt32 ((n : Int) + 1)) 4 = 0 :=
        (tmod_wrapInt32_four _).2 (by omega)
      rw [if_pos ht, wrapInt32_add_one]
      have : (n + 1) / 4 = n / 4 + 1 := by omega
      rw [this]; push_cast; rfl
    · have ht : ¬ Int.tmod (wrapInt32 ((n : Int) + 1)) 4 = 0 := fun hh =>
        h (by have := (tmod_wrapInt32_four _).1 hh; omega)
      rw [if_neg ht]
      have : (n + 1) / 4 = n / 4 := by omega
      rw [this]

/-- The OBJ designation bits after call `k` from counters 0, in terms of the 32-bit
counter `(k - 1) / 4` of that call. -/
theorem gameUpdates_designation (data : Nat → AppData) (g : GameState) (k : Nat) (hk : 1 ≤ k)
    (h1 : g.counter = 0) (h2 : g.counter2 = 0) :
    load Registers.ctype (Registers.at "mainScreenDesignation" "obj")
        (gameUpdates data k g).snes.reg =
      (if Int.tmod (wrapInt32 (((k - 1) / 4 : Nat) : Int)) 62 ≥ 31 then 1 else 0) ∧
    load Registers.ctype (Registers.at "subScreenDesignation" "obj")
        (gameUpdates data k g).snes.reg =
      (if Int.tmod (wrapInt32 (((k - 1) / 4 : Nat) : Int)) 62 ≥ 31 then 0 else 1) := by
  obtain ⟨n, rfl⟩ : ∃ n, k = n + 1 := ⟨k - 1, by omega⟩
  have hc := (gameUpdates_counters data g n h1 h2).2
  have hd := gameUpdate_designation (data n) (gameUpdates data n g)
  rw [hc] at hd
  rw [Nat.add_sub_cancel]
  exact hd

/-- The fade amount of a call whose counter has not overflowed. -/
theorem tmod_counter_of_lt (n : Nat) (h : n < 2147483648) :
    Int.tmod (wrapInt32 ((n : Nat) : Int)) 62 = ((n % 62 : Nat) : Int) := by
  rw [wrapInt32_of_lt _ (by omega) (by omega), Int.tmod_eq_emod (by omega) (by decide)]
  omega

/-- C22, amended: the state `_setupTestSNES` leaves has `mainScreenDesignation.obj = 0`
and `subScreenDesignation.obj = 1`; from it, with the counters at 0, after every call
`k ≥ 1` of `gameUpdate` exactly one of the two bits is 1; and while the 32-bit counter has
not overflowed, `(k - 1) / 4 < 2^31`, the counter of call `k` is `(k - 1) / 4` and with
`amt = ((k - 1) / 4) mod 62` OBJ is on the sub screen only when `amt < 31` and on the
main screen only when `amt ≥ 31`; `amt < 31` holds for the first 124 of every 248 calls,
and the designation after call `k + 248` is that after call `k` when call `k + 248` is
before the overflow too. -/
theorem gameUpdate_obj_designation_period (data : Nat → AppData) (cgram vram oam reg : Mem)
    (k : Nat) (hk : 1 ≤ k) :
    load Registers.ctype (Registers.at "mainScreenDesignation" "obj")
      (_setupTestSNES.state cgram vram oam reg).snes.reg = 0 ∧
    load Registers.ctype (Registers.at "subScreenDesignation" "obj")
      (_setupTestSNES.state cgram vram oam reg).snes.reg = 1 ∧
    load Registers.ctype (Registers.at "mainScreenDesignation" "obj")
        (gameUpdates data k (_setupTestSNES.state cgram vram oam reg)).snes.reg +
      load Registers.ctype (Registers.at "subScreenDesignation" "obj")
        (gameUpdates data k (_setupTestSNES.state cgram vram oam reg)).snes.reg = 1 ∧
    ((k - 1) / 4 % 62 < 31 ↔ (k - 1) % 248 < 124) ∧
    ((k - 1) / 4 < 2147483648 →
      (gameUpdates data (k - 1) (_setupTestSNES.state cgram vram oam reg)).counter =
        (((k - 1) / 4 : Nat) : Int) ∧
      ((k - 1) / 4 % 62 < 31 →
        load Registers.ctype (Registers.at "mainScreenDesignation" "obj")
          (gameUpdates data k (_setupTestSNES.state cgram vram oam reg)).snes.reg = 0 ∧
        load Registers.ctype (Registers.at "subScreenDesignation" "obj")
          (gameUpdates data k (_setupTestSNES.state cgram vram oam reg)).snes.reg = 1) ∧
      (31 ≤ (k - 1) / 4 % 62 →
        load Registers.ctype (Registers.at "mainScreenDesignation" "obj")
          (gameUpdates data k (_setupTestSNES.state cgram vram oam reg)).snes.reg = 1 ∧
        load Registers.ctype (Registers.at "subScreenDesignation" "obj")
          (gameUpdates data k (_setupTestSNES.state cgram vram oam reg)).snes.reg = 0) ∧
      ((k + 248 - 1) / 4 < 2147483648 →
        load Registers.ctype (Registers.at "mainScreenDesignation" "obj")
            (gameUpdates data (k + 248) (_setupTestSNES.state cgram vram oam reg)).snes.reg =
          load Registers.ctype (Registers.at "mainScreenDesignation" "obj")
            (gameUpdates data k (_setupTestSNES.state cgram vram oam reg)).snes.reg ∧
        load Registers.ctype (Registers.at "subScreenDesignation" "obj")
            (gameUpdates data (k + 248) (_setupTestSNES.state cgram vram oam reg)).snes.reg =
          load Registers.ctype (Registers.at "subScreenDesignation" "obj")
            (gameUpdates data k (_setupTestSNES.state cgram vram oam reg)).snes.reg)) := by
  have hiff : (((((k - 1) / 4) % 62 : Nat) : Int) ≥ 31) ↔ 31 ≤ (k - 1) / 4 % 62 := by omega
  have hper : (k + 248 - 1) / 4 % 62 = (k - 1) / 4 % 62 := by omega
  have hhalf : (k - 1) / 4 % 62 < 31 ↔ (k - 1) % 248 < 124 := by omega
  have hk2 : 1 ≤ k + 248 := by omega
  have hcnt := (gameUpdates_counters data (_setupTestSNES.state cgram vram oam reg) (k - 1)
    rfl rfl).2
  obtain ⟨m1, s1⟩ := gameUpdates_designation data (_setupTestSNES.state cgram vram oam reg) k
    hk rfl rfl
  obtain ⟨m2, s2⟩ := gameUpdates_designation data (_setupTestSNES.state cgram vram oam reg)
    (k + 248) hk2 rfl rfl
  refine ⟨?_, ?_, ?_, hhalf, ?_⟩
  · show load _ _ (_setupTestSNES.registers reg) = 0
    rw [setupRegisters_eq_stores]
    exact load_stores_assigned _ _ _ _ _ 21 49 1 4 1 rfl (by decide) (by decide)
  · show load _ _ (_setupTestSNES.registers reg) = 1
    rw [setupRegisters_eq_stores]
    exact load_stores_assigned _ _ _ _ _ 22 50 1 4 1 rfl (by decide) (by decide)
  · rw [m1, s1]
    by_cases h : Int.tmod (wrapInt32 (((k - 1) / 4 : Nat) : Int)) 62 ≥ 31
    · simp only [if_pos h]
    · simp only [if_neg h]
  · intro hb
    have hw : wrapInt32 (((k - 1) / 4 : Nat) : Int) = (((k - 1) / 4 : Nat) : Int) :=
      wrapInt32_of_lt _ (Int.ofNat_nonneg _) (Int.ofNat_lt.mpr hb)
    have ht := tmod_counter_of_lt ((k - 1) / 4) hb
    rw [hw] at hcnt
    rw [ht] at m1 s1
    simp only [hiff] at m1 s1
    rw [m1, s1]
    refine ⟨hcnt, ?_, ?_, ?_⟩
    · intro h
      have h' : ¬ (31 ≤ (k - 1) / 4 % 62) := Nat.not_le.mpr h
      simp only [if_neg h', and_self]
    · intro h
      simp only [if_pos h, and_self]
    · intro hb2
      have ht2 := tmod_counter_of_lt ((k + 248 - 1) / 4) hb2
      rw [ht2, hper] at m2 s2
      simp only [hiff] at m2 s2
      rw [m2, s2]
      exact ⟨rfl, rfl⟩

/-- Witness of C22: call 125 is the first with OBJ on the main screen. -/
theorem gameUpdate_obj_designation_period_witness :
    load Registers.ctype (Registers.at "mainScreenDesignation" "obj")
      (gameUpdates (fun _ => ⟨28, 58, 0, 0, 0⟩) 125
        (_setupTestSNES.state (fun _ => 0) (fun _ => 0) (fun _ => 0) (fun _ => 0))).snes.reg
      = 1 ∧
    load Registers.ctype (Registers.at "subScreenDesignation" "obj")
      (gameUpdates (fun _ => ⟨28, 58, 0, 0, 0⟩) 125
        (_setupTestSNES.state (fun _ => 0) (fun _ => 0) (fun _ => 0) (fun _ => 0))).snes.reg
      = 0 :=
  ((gameUpdate_obj_designation_period (fun _ => ⟨28, 58, 0, 0, 0⟩) (fun _ => 0) (fun _ => 0)
    (fun _ => 0) (fun _ => 0) 125 (by decide)).2.2.2.2 (by decide)).2.2.1 (by decide)

/-- C22 as stated fails once the 32-bit counter has overflowed: at call
`k = 4 * (2^31 + 29) + 1` the claim's `amt = ((k - 1) / 4) mod 62` is 31, which puts OBJ
on the main screen, but the counter of that call is `-2147483619`, the C remainder
`counter % 62` is `-35`, below 31, and `gameUpdate` leaves OBJ on the sub screen. -/
theorem gameUpdate_obj_designation_overflow :
    (8589934709 - 1) / 4 % 62 = 31 ∧
    wrapInt32 (((8589934709 - 1) / 4 : Nat) : Int) = -2147483619 ∧
    Int.tmod (-2147483619) 62 = -35 ∧
    load Registers.ctype (Registers.at "mainScreenDesignation" "obj")
      (gameUpdates (fun _ => ⟨28, 58, 0, 0, 0⟩) 8589934709
        (_setupTestSNES.state (fun _ => 0) (fun _ => 0) (fun _ => 0) (fun _ => 0))).snes.reg
      = 0 ∧
    load Registers.ctype (Registers.at "subScreenDesignation" "obj")
      (gameUpdates (fun _ => ⟨28, 58, 0, 0, 0⟩) 8589934709
        (_setupTestSNES.state (fun _ => 0) (fun _ => 0) (fun _ => 0) (fun _ => 0))).snes.reg
      = 1 := by
  have hw : wrapInt32 (((8589934709 - 1) / 4 : Nat) : Int) = -2147483619 := by decide
  have ht : Int.tmod (-2147483619) 62 = -35 := by decide
  obtain ⟨m, s⟩ := gameUpdates_designation (fun _ => ⟨28, 58, 0, 0, 0⟩)
    (_setupTestSNES.state (fun _ => 0) (fun _ => 0) (fun _ => 0) (fun _ => 0)) 8589934709
    (by decide) rfl rfl
  rw [hw, ht] at m s
  exact ⟨by decide, hw, ht, m, s⟩

/-! ## Frame update, OBJ palette fade -/

end SnesQuest
